import Mathlib

/-!
Verification of the request-validation, filter-composition and pagination
engine of the tc-api SRM actions (src/actions/srmChallenges.js).

The JavaScript source is shallowly embedded: request parameters are records
of `Option` fields (a `none` field models a parameter absent from the flat
parameter map), JS numbers that survive validation are modelled by `Int`,
validators return `Option ApiError` (the JS convention of returning `null`
for success and an error object for failure), and each endpoint `run`
function is a Lean function from the parameter record (plus the results of
the external data-store queries, which the source obtains through
`api.dataAccess`) to an `Except` of the response envelope.

Helper functions that live in the repository outside the given source
(`helper.checkSubset`, `helper.checkDates`, ...) are modelled from the
specification; each such definition carries a doc comment starting with
"Modelled from the spec:".
-/

set_option autoImplicit false

namespace TcApi

/-- Error taxonomy of the engine: `illegalArgument` corresponds to
`IllegalArgumentError`, `notFoundError` to `NotFoundError`, `badRequest`
(unauthenticated) and `forbidden` to the corresponding helper errors. -/
inductive ApiError where
  | illegalArgument (message : String)
  | notFoundError (message : String)
  | unauthorized (message : String)
  | forbidden (message : String)
  deriving Repr, DecidableEq

/-- Outcome of a `run` function that may also throw a raw JavaScript
`TypeError` (dereferencing a property of `undefined`), which is distinct
from every structured `ApiError`. -/
inductive RunError where
  | apiError (e : ApiError)
  | thrownTypeError
  deriving Repr, DecidableEq

/-- JS `a || b` on error values: validators return `null` (here `none`) on
success, so `error = error || check(...)` keeps the first error. -/
def orError (a b : Option ApiError) : Option ApiError :=
  match a with
  | some e => some e
  | none => b

@[simp] theorem orError_some (e : ApiError) (b : Option ApiError) :
    orError (some e) b = some e := rfl

@[simp] theorem orError_none (b : Option ApiError) : orError none b = b := rfl

/-- JS `s || d` for strings: the empty string is falsy. -/
def jsOrString (s d : String) : String := if s = "" then d else s

/-- JS `params.x || d` for an optional string parameter: `undefined` and the
empty string are falsy. -/
def jsOrOptStr (v : Option String) (d : String) : String :=
  match v with
  | some s => if s = "" then d else s
  | none => d

/-- JS `Number(params.x || d)` for an optional numeric parameter.  The
embedding restricts the parameter domain to requests whose numeric
parameters parse to integers (non-integer strings are rejected by the
positive-integer / max-number validators in every path modelled here). -/
def jsOrOptInt (v : Option Int) (d : Int) : Int := v.getD d

/-- ASCII lower-casing of one character (the strings handled by these
endpoints are ASCII). -/
def charToLower (c : Char) : Char :=
  if 65 ≤ c.toNat ∧ c.toNat ≤ 90 then Char.ofNat (c.toNat + 32) else c

/-- ASCII upper-casing of one character. -/
def charToUpper (c : Char) : Char :=
  if 97 ≤ c.toNat ∧ c.toNat ≤ 122 then Char.ofNat (c.toNat - 32) else c

/-- JS String.prototype.toLowerCase, character by character. -/
def jsToLower (s : String) : String := ⟨s.data.map charToLower⟩

/-- JS String.prototype.toUpperCase, character by character. -/
def jsToUpper (s : String) : String := ⟨s.data.map charToUpper⟩

/-- Splitting loop of jsSplitComma: builds the current piece in reverse. -/
def splitCommaAux : List Char → List Char → List String
  | [], acc => [⟨acc.reverse⟩]
  | c :: rest, acc =>
    if c = ',' then ⟨acc.reverse⟩ :: splitCommaAux rest []
    else splitCommaAux rest (c :: acc)

/-- JS s.split(",") — the empty string yields one empty piece, and empty
pieces between adjacent commas are kept. -/
def jsSplitComma (s : String) : List String := splitCommaAux s.data []

/-- The caller of a request: anonymous (no logged-in principal), a plain
logged-in member, or an administrator. -/
inductive Caller where
  | anonymous
  | member
  | admin
  deriving Repr, DecidableEq

/-! ### Date model

Dates on the wire use the fixed format `YYYY-MM-DDTHH:mm:ss.SSSZ`
(`SCHEDULE_DATE_FORMAT`); admin-write dates use `YYYY-MM-DD HH:mm`
(`DATE_FORMAT`).  A parsed date is a civil date-time plus a zone offset,
compared as an absolute instant. -/

structure DateTime where
  year : Int
  month : Int
  day : Int
  hour : Int
  minute : Int
  second : Int
  millis : Int
  offsetMinutes : Int
  deriving Repr, DecidableEq

/-- Days from civil date to the epoch 1970-01-01 (standard civil-calendar
day count with Gregorian leap years). -/
def daysFromCivil (y m d : Int) : Int :=
  let y2 : Int := if m ≤ 2 then y - 1 else y
  let era : Int := (if 0 ≤ y2 then y2 else y2 - 399) / 400
  let yoe : Int := y2 - era * 400
  let mp : Int := (m + 9) % 12
  let doy : Int := (153 * mp + 2) / 5 + d - 1
  let doe : Int := yoe * 365 + yoe / 4 - yoe / 100 + doy
  era * 146097 + doe - 719468

/-- The absolute instant of a parsed date, in milliseconds since the epoch,
taking the zone offset into account. -/
def instant (t : DateTime) : Int :=
  (((daysFromCivil t.year t.month t.day * 24 + t.hour) * 60 + t.minute
      - t.offsetMinutes) * 60 + t.second) * 1000 + t.millis

/-- Numeric value of a decimal digit character, if it is one. -/
def digitVal (c : Char) : Option Int :=
  if c.isDigit then some ((c.toNat : Int) - 48) else none

/-- Read exactly `n` decimal digits from the character list, returning the
accumulated value and the remaining characters. -/
def takeDigits : Nat → Int → List Char → Option (Int × List Char)
  | 0, acc, cs => some (acc, cs)
  | Nat.succ k, acc, c :: rest =>
    match digitVal c with
    | some d => takeDigits k (acc * 10 + d) rest
    | none => none
  | Nat.succ _, _, [] => none

/-- Expect a literal character at the head of the list. -/
def expectChar (c : Char) : List Char → Option (List Char)
  | x :: rest => if x = c then some rest else none
  | [] => none

/-- Parse the trailing digits of a zone designator, given its sign. -/
def parseZoneDigits (sign : Int) (cs : List Char) : Option Int :=
  match takeDigits 2 0 cs with
  | some (h, rest) =>
    (match rest with
     | ':' :: rest2 =>
       match takeDigits 2 0 rest2 with
       | some (mi, []) => some (sign * (h * 60 + mi))
       | _ => none
     | _ =>
       match takeDigits 2 0 rest with
       | some (mi, []) => some (sign * (h * 60 + mi))
       | _ => none)
  | none => none

/-- Parse a zone designator (`Z`, `+HHMM`, `+HH:MM` and negative forms),
returning the offset in minutes. -/
def parseZone : List Char → Option Int
  | ['Z'] => some 0
  | '+' :: rest => parseZoneDigits 1 rest
  | '-' :: rest => parseZoneDigits (-1) rest
  | _ => none

/-- Modelled from the spec: strict parsing of the wire date format
`YYYY-MM-DDTHH:mm:ss.SSSZ` used by the schedule endpoint (the source
delegates to the moment library, which is outside the given source). -/
def parseScheduleDate (s : String) : Option DateTime := do
  let (y, r1) ← takeDigits 4 0 s.data
  let r2 ← expectChar '-' r1
  let (mo, r3) ← takeDigits 2 0 r2
  let r4 ← expectChar '-' r3
  let (d, r5) ← takeDigits 2 0 r4
  let r6 ← expectChar 'T' r5
  let (h, r7) ← takeDigits 2 0 r6
  let r8 ← expectChar ':' r7
  let (mi, r9) ← takeDigits 2 0 r8
  let r10 ← expectChar ':' r9
  let (sec, r11) ← takeDigits 2 0 r10
  let r12 ← expectChar '.' r11
  let (ms, r13) ← takeDigits 3 0 r12
  let off ← parseZone r13
  if 1 ≤ mo ∧ mo ≤ 12 ∧ 1 ≤ d ∧ d ≤ 31 ∧ h ≤ 23 ∧ mi ≤ 59 ∧ sec ≤ 59 then
    some { year := y, month := mo, day := d, hour := h, minute := mi,
           second := sec, millis := ms, offsetMinutes := off }
  else
    none

/-- Modelled from the spec: strict parsing of the admin-write date format
`YYYY-MM-DD HH:mm` (the source delegates to the moment library). -/
def parseSimpleDate (s : String) : Option DateTime := do
  let (y, r1) ← takeDigits 4 0 s.data
  let r2 ← expectChar '-' r1
  let (mo, r3) ← takeDigits 2 0 r2
  let r4 ← expectChar '-' r3
  let (d, r5) ← takeDigits 2 0 r4
  let r6 ← expectChar ' ' r5
  let (h, r7) ← takeDigits 2 0 r6
  let r8 ← expectChar ':' r7
  let (mi, r9) ← takeDigits 2 0 r8
  if r9 = [] ∧ 1 ≤ mo ∧ mo ≤ 12 ∧ 1 ≤ d ∧ d ≤ 31 ∧ h ≤ 23 ∧ mi ≤ 59 then
    some { year := y, month := mo, day := d, hour := h, minute := mi,
           second := 0, millis := 0, offsetMinutes := 0 }
  else
    none

/-! ### Constants from the source -/

/-- Maximum possible value for id fields. -/
def MAX_ID : Int := 999999999

/-- The input date format for startDate, endDate, adStart, adEnd. -/
def DATE_FORMAT : String := "YYYY-MM-DD HH:mm"

/-- Max value for integer. -/
def MAX_INT : Int := 2147483647

/-- The default page size. -/
def DEFAULT_PAGE_SIZE : Int := 50

/-- The schedule date format. -/
def SCHEDULE_DATE_FORMAT : String := "YYYY-MM-DDTHH:mm:ss.SSSZ"

/-- Predefined list of valid sort columns for active challenges. -/
def ALLOWABLE_SORT_COLUMN : List String :=
  ["roundId", "name", "startDate", "totalCompetitors", "divICompetitors",
   "divIICompetitors", "divITotalSolutionsSubmitted",
   "divIAverageSolutionsSubmitted", "divIITotalSolutionsSubmitted",
   "divIIAverageSolutionsSubmitted", "divITotalSolutionsChallenged",
   "divIAverageSolutionsChallenged", "divIITotalSolutionsChallenged",
   "divIIAverageSolutionsChallenged", "submissionEndDate"]

/-- Predefined list of valid sort columns for querying the srm schedules. -/
def ALLOWABLE_SCHEDULE_SORT_COLUMN : List String :=
  ["registrationStartTime", "registrationEndTime",
   "codingStartTime", "codingEndTime",
   "intermissionStartTime", "intermissionEndTime",
   "challengeStartTime", "challengeEndTime",
   "systestStartTime", "systestEndTime"]

/-- Valid status values for the srm schedule api. -/
def VALID_ROUND_STATUS : List String := ["f", "a", "p"]

/-- Valid round type values for the srm schedule api. -/
def VALID_ROUND_TYPES : List String :=
  ["Single Round Match", "Tournament Round", "Long Round"]

/-- Valid sort columns for the srm practice problems api. -/
def VALID_PRACTICE_PROBLEMS_SORT_COLUMN : List String :=
  ["problemId", "problemName", "problemType", "difficulty", "points",
   "status", "myPoints"]

/-- Valid status values for the srm practice problems api. -/
def VALID_PRACTICE_PROBLEMS_STATUS : List String := ["new", "viewed", "solved"]

/-- Valid difficulty values for the srm practice problems api. -/
def VALID_PRACTICE_PROBLEMS_DIFFICULTY : List String := ["easy", "medium", "hard"]

/-- Valid type values for the srm practice problems api. -/
def VALID_PRACTICE_PROBLEMS_TYPE : List String := ["single", "team", "long"]

/-- The ascending sort order constant (helper.consts.ASCENDING). -/
def ASCENDING : String := "asc"

/-! ### Validators modelled from the spec

The repository keeps its generic validators in a helper module that is not
part of the given source; only their call sites are.  Each is modelled from
the specification (section 4.1 of the spec). -/

/-- Modelled from the spec: conditional-requirement check (helper.checkDefined);
a missing value fails with an invalid-argument error naming the field. -/
def checkDefined {α : Type} (v : Option α) (name : String) : Option ApiError :=
  match v with
  | some _ => none
  | none => some (.illegalArgument (name ++ " should be defined."))

/-- Modelled from the spec: range validator (helper.checkMaxNumber); the
integer must be at most the configured maximum. -/
def checkMaxNumber (x : Int) (maxValue : Int) (name : String) : Option ApiError :=
  if x ≤ maxValue then none
  else some (.illegalArgument (name ++ " should be less or equal to " ++ toString maxValue ++ "."))

/-- Modelled from the spec: helper.checkMaxInt is checkMaxNumber against MAX_INT. -/
def checkMaxInt (x : Int) (name : String) : Option ApiError :=
  checkMaxNumber x MAX_INT name

/-- Modelled from the spec: page-index validator (helper.checkPageIndex); the
page index is 1-based, with -1 as the request-all-rows sentinel. -/
def checkPageIndex (x : Int) (name : String) : Option ApiError :=
  if x = -1 ∨ 1 ≤ x then none
  else some (.illegalArgument (name ++ " should be equal to -1 or greater than 0"))

/-- Modelled from the spec: positivity validator (helper.checkPositiveInteger). -/
def checkPositiveInteger (x : Int) (name : String) : Option ApiError :=
  if 1 ≤ x then none
  else some (.illegalArgument (name ++ " should be positive."))

/-- Modelled from the spec: non-negativity validator (helper.checkNonNegativeInteger). -/
def checkNonNegativeInteger (x : Int) (name : String) : Option ApiError :=
  if 0 ≤ x then none
  else some (.illegalArgument (name ++ " should be non-negative."))

/-- Modelled from the spec: membership validator (helper.checkContains); the
value must be one of an enumerated allow-list, case-sensitive exact match. -/
def checkContains (list : List String) (value : String) (name : String) : Option ApiError :=
  if list.contains value then none
  else some (.illegalArgument (name ++ " should be an element of " ++ String.intercalate "," list ++ "."))

/-- Modelled from the spec: subset validator (helper.checkSubset); every
element of a comma-delimited input must be in the allow-list, and an unknown
element fails with the first offending element named along with the owning
field. -/
def checkSubset (xs : List String) (allow : List String) (name : String) : Option ApiError :=
  match xs.find? (fun x => !allow.contains x) with
  | some x => some (.illegalArgument (name ++ " contains invalid value " ++ x ++ "."))
  | none => none

/-- Modelled from the spec: sort-column allow-list validator
(helper.checkSortColumn); the lower-cased column must be a member of the
lower-cased endpoint allow-list, otherwise the error names sortColumn. -/
def checkSortColumn (list : List String) (value : String) : Option ApiError :=
  if (list.map jsToLower).contains value then none
  else some (.illegalArgument ("The sort column " ++ value ++ " is invalid, it should be an element of " ++ String.intercalate "," list ++ "."))

/-- Modelled from the spec: generic argument check (the checkArgument
underscore mixin); fails with the given message when the condition is false. -/
def checkArgument (cond : Bool) (message : String) : Option ApiError :=
  if cond then none else some (.illegalArgument message)

/-- Modelled from the spec: string-population validator
(helper.checkStringPopulated); an absent or empty string fails. -/
def checkStringPopulated (v : Option String) (name : String) : Option ApiError :=
  match v with
  | some s => if s = "" then some (.illegalArgument (name ++ " should be non-null and non-empty string.")) else none
  | none => some (.illegalArgument (name ++ " should be non-null and non-empty string."))

/-- Modelled from the spec: string type check (helper.checkString); every
value of this embedding is a typed string, so the check always passes. -/
def checkString (_value : String) (_name : String) : Option ApiError := none

/-- Modelled from the spec: integer type check (helper.checkInteger); the
embedding restricts numeric parameters to integers, so the check passes. -/
def checkInteger (_value : Int) (_name : String) : Option ApiError := none

/-- Modelled from the spec: identifier validator (helper.checkIdParameter);
a positive integer bounded by the domain-specific identifier bound MAX_ID.
An absent or unparsable value (JS NaN) fails. -/
def checkIdParameter (v : Option Int) (name : String) : Option ApiError :=
  match v with
  | none => some (.illegalArgument (name ++ " should be number."))
  | some x =>
    if 1 ≤ x ∧ x ≤ MAX_ID then none
    else some (.illegalArgument (name ++ " should be between 1 and " ++ toString MAX_ID ++ "."))

/-- Modelled from the spec: date-format validator (helper.validateDate); the
value must parse under the fixed format string, and on failure the error
names the field and the expected format. -/
def validateDate (value : String) (name : String) (format : String) : Option ApiError :=
  let ok :=
    if format = SCHEDULE_DATE_FORMAT then (parseScheduleDate value).isSome
    else if format = DATE_FORMAT then (parseSimpleDate value).isSome
    else false
  if ok then none
  else some (.illegalArgument (name ++ " is not a valid date with format " ++ format ++ "."))

/-- Modelled from the spec: date-ordering validator (helper.checkDates).
Following the error-message class of the source call sites and the round-trip
scenario of the spec (an After bound later than the matching Before bound is
rejected), the check fails exactly when the first date is not strictly
earlier than the second. -/
def checkDates (d1 d2 : String) (message : String) : Option ApiError :=
  match parseScheduleDate d1, parseScheduleDate d2 with
  | some a, some b =>
    if instant a < instant b then none else some (.illegalArgument message)
  | _, _ => some (.illegalArgument message)

/-- Modelled from the spec: permission check (helper.checkAdmin); an
anonymous caller is unauthenticated and a non-admin member is forbidden. -/
def checkAdmin (c : Caller) (unauthorizedMessage : String) (nonAdminMessage : String) : Option ApiError :=
  match c with
  | .anonymous => some (.unauthorized unauthorizedMessage)
  | .member => some (.forbidden nonAdminMessage)
  | .admin => none

/-- Modelled from the spec: logged-in check (helper.checkMember). -/
def checkMember (c : Caller) (message : String) : Option ApiError :=
  match c with
  | .anonymous => some (.unauthorized message)
  | .member => none
  | .admin => none

/-- Modelled from the spec: helper.getLowerCaseList lower-cases every element. -/
def getLowerCaseList (l : List String) : List String := l.map jsToLower

/-- Modelled from the spec: helper.getSortColumnDBName resolves a public
sort-column name to the underlying storage column; the concrete name table
is external configuration, which no claim inspects, so the resolution is
modelled as the identity. -/
def getSortColumnDBName (s : String) : String := s

/-! ### In-source generic validators (lines 1027-1069 of the source) -/

/-- Checks whether the length of a value exceeds a threshold; the error
names the limit (source lines 1035-1039). -/
def checkExceedsLength (obj : String) (len : Nat) (name : String) : Option ApiError :=
  if obj.length > len then
    some (.illegalArgument ("Length of " ++ name ++ " must not exceed " ++ toString len ++ " characters."))
  else none

/-- The scanning loop of checkIllegalCharacters (source lines 1054-1064):
`pre` records whether the previous character was an unmatched double quote
(the source variable `pre` is always either null or the quote character);
returns true when an unescaped double quote is detected, and the final
`pre` state accounts for a trailing lone quote (source lines 1065-1067). -/
def quoteScanErr : Bool → List Char → Bool
  | pre, [] => pre
  | true, c :: rest => if c = '"' then quoteScanErr false rest else true
  | false, c :: rest => if c = '"' then quoteScanErr true rest else quoteScanErr false rest

/-- Checks whether a string contains unescaped double quotes (source lines
1047-1069), including the special case of the one-character quote string. -/
def checkIllegalCharacters (obj : String) (name : String) : Option ApiError :=
  let message := name ++ " contains unescaped quotes."
  if obj = "\"" then some (.illegalArgument message)
  else if quoteScanErr false obj.data then some (.illegalArgument message)
  else none

/-- Spec-side predicate for claim C1: every double quote in the character
list is immediately followed by a second double quote acting as its escape
(greedy left-to-right pairing). -/
def specEscapedQuotesOk : List Char → Bool
  | [] => true
  | '"' :: '"' :: rest => specEscapedQuotesOk rest
  | '"' :: _ => false
  | _ :: rest => specEscapedQuotesOk rest

/-! ### Response envelope and query results

The external store is abstracted by the results of the concurrently issued
data and count queries: `data` is the row list returned by the data query
for the composed filters and page window, `count` is the scalar of the
single-row count query (`results.count[0].total_count`).  The field-by-field
storage-row to response-row renaming performed by the envelope builders is
not load-bearing for any claim and is modelled as the identity on rows. -/

/-- A storage row: named columns with string values. -/
structure DbRow where
  fields : List (String × String)
  deriving Repr, DecidableEq

/-- Results of the data and count queries for one composed list query. -/
structure ListQueryResults where
  data : List DbRow
  count : Int
  deriving Repr, DecidableEq

/-- The uniform paged response envelope of the list endpoints. -/
structure ListEnvelope where
  total : Int
  pageIndex : Int
  pageSize : Int
  data : List DbRow
  deriving Repr, DecidableEq

/-! ### searchSRMChallenges (source lines 236-376) -/

/-- The flat parameter map of searchSRMChallenges (all fields optional). -/
structure SearchSRMChallengesParams where
  pageSize : Option Int
  pageIndex : Option Int
  sortColumn : Option String
  sortOrder : Option String
  listType : Option String
  challengeName : Option String
  deriving Repr, DecidableEq

/-- A searchSRMChallenges parameter map with every parameter absent. -/
def emptySearchParams : SearchSRMChallengesParams :=
  { pageSize := none, pageIndex := none, sortColumn := none,
    sortOrder := none, listType := none, challengeName := none }

/-- The effective sort column of searchSRMChallenges (source lines 259-263):
the lower-cased parameter defaulting to roundId, with submissionenddate
remapped to roundid ("for now"). -/
def searchEffectiveSortColumn (p : SearchSRMChallengesParams) : String :=
  let c := jsToLower (jsOrOptStr p.sortColumn "roundId")
  if c = "submissionenddate" then "roundid" else c

/-- The effective sort order of searchSRMChallenges (source lines 258 and
269-271): lower-cased parameter defaulting to asc, overridden to desc when
sortOrder is absent and the effective sort column is roundid. -/
def searchEffectiveSortOrder (p : SearchSRMChallengesParams) : String :=
  if p.sortOrder.isNone ∧ searchEffectiveSortColumn p = "roundid" then "desc"
  else jsToLower (jsOrOptStr p.sortOrder "asc")

/-- The effective page index of searchSRMChallenges before the sentinel
remap (source line 264). -/
def searchEffectivePageIndex (p : SearchSRMChallengesParams) : Int :=
  jsOrOptInt p.pageIndex 1

/-- The effective page size of searchSRMChallenges before the sentinel
remap (source line 265). -/
def searchEffectivePageSize (p : SearchSRMChallengesParams) : Int :=
  jsOrOptInt p.pageSize DEFAULT_PAGE_SIZE

/-- The effective list type of searchSRMChallenges (source line 266). -/
def searchEffectiveListType (p : SearchSRMChallengesParams) : String :=
  jsToUpper (jsOrOptStr p.listType "ACTIVE")

/-- The challengeName filter value (source line 267): the concatenation
with percent signs is computed on the dereferenced parameter, then passed
through the JS or-else with the bare percent sign. -/
def searchChallengeNameValue (cn : String) : String :=
  jsOrString ("%" ++ jsToLower cn ++ "%") "%"

/-- The validation chain of searchSRMChallenges (source lines 281-293),
given the dereferenced challengeName string. -/
def searchSRMChallenges_error (p : SearchSRMChallengesParams) (cn : String) : Option ApiError :=
  let allowedSort := getLowerCaseList ALLOWABLE_SORT_COLUMN
  let pageIndex := searchEffectivePageIndex p
  let pageSize := searchEffectivePageSize p
  let listType := searchEffectiveListType p
  let challengeName := searchChallengeNameValue cn
  let error0 := if p.pageIndex.isSome ∧ pageIndex ≠ -1 then checkDefined p.pageSize "pageSize" else none
  orError error0
    (orError (checkMaxNumber pageIndex MAX_INT "pageIndex")
      (orError (checkMaxNumber pageSize MAX_INT "pageSize")
        (orError (checkPageIndex pageIndex "pageIndex")
          (orError (checkPositiveInteger pageSize "pageSize")
            (orError (checkContains ["asc", "desc"] (searchEffectiveSortOrder p) "sortOrder")
              (orError (checkContains ["ACTIVE", "UPCOMING"] listType "listType")
                (orError (checkArgument (challengeName.length ≤ 32) "The challengeName should less than 32 characters.")
                  (checkContains allowedSort (searchEffectiveSortColumn p) "sortColumn"))))))))

/-- The sqlParams record of searchSRMChallenges (source lines 303-310). -/
structure SearchSqlParams where
  firstRowIndex : Int
  pageSize : Int
  sortColumn : String
  sortOrder : String
  challengeName : String
  status : String
  deriving Repr, DecidableEq

/-- The state of a validated searchSRMChallenges request when it reaches
query execution: the composed sqlParams and the in-scope pageIndex and
pageSize variables used by the envelope builder. -/
structure SearchPrepared where
  sqlParams : SearchSqlParams
  pageIndex : Int
  pageSize : Int
  deriving Repr, DecidableEq

/-- The sentinel remap and sqlParams construction of searchSRMChallenges
(source lines 299-310), reached only when validation passed. -/
def searchPreparedOf (p : SearchSRMChallengesParams) (cn : String) : SearchPrepared :=
  let pageIndex := searchEffectivePageIndex p
  let pageSize := searchEffectivePageSize p
  let pageIndex2 := if pageIndex = -1 then 1 else pageIndex
  let pageSize2 := if pageIndex = -1 then MAX_INT else pageSize
  let status := if searchEffectiveListType p = "ACTIVE" then "A" else "F"
  { sqlParams :=
      { firstRowIndex := (pageIndex2 - 1) * pageSize2,
        pageSize := pageSize2,
        sortColumn := getSortColumnDBName (searchEffectiveSortColumn p),
        sortOrder := searchEffectiveSortOrder p,
        challengeName := searchChallengeNameValue cn,
        status := status },
    pageIndex := pageIndex2,
    pageSize := pageSize2 }

/-- The pre-query phase of searchSRMChallenges#run: dereferencing an absent
challengeName (source line 267) throws a TypeError before any validation;
otherwise the validation chain either aborts the waterfall or yields the
prepared query parameters. -/
def searchSRMChallenges_prepare (p : SearchSRMChallengesParams) : Except RunError SearchPrepared :=
  match p.challengeName with
  | none => .error .thrownTypeError
  | some cn =>
    match searchSRMChallenges_error p cn with
    | some e => .error (.apiError e)
    | none => .ok (searchPreparedOf p cn)

/-- searchSRMChallenges#run (source lines 248-375): validation, the
concurrent count and data queries (abstracted by `db`), and the response
envelope (source lines 326-343). -/
def searchSRMChallenges_run (p : SearchSRMChallengesParams) (db : ListQueryResults) :
    Except RunError ListEnvelope :=
  match searchSRMChallenges_prepare p with
  | .error e => .error e
  | .ok prep =>
    if db.data.length = 0 then
      .ok { total := 0, pageIndex := prep.pageIndex,
            pageSize := if p.pageIndex = some (-1) then 0 else prep.pageSize,
            data := [] }
    else
      .ok { total := db.count, pageIndex := prep.pageIndex,
            pageSize := if p.pageIndex = some (-1) then db.count else prep.pageSize,
            data := db.data }

/-! ### getSRMSchedule (source lines 615-839) -/

/-- The flat parameter map of getSRMSchedule (all fields optional). -/
structure GetSRMScheduleParams where
  pageSize : Option Int
  pageIndex : Option Int
  sortColumn : Option String
  sortOrder : Option String
  statuses : Option String
  types : Option String
  registrationStartTimeBefore : Option String
  registrationStartTimeAfter : Option String
  registrationEndTimeBefore : Option String
  registrationEndTimeAfter : Option String
  codingStartTimeBefore : Option String
  codingStartTimeAfter : Option String
  codingEndTimeBefore : Option String
  codingEndTimeAfter : Option String
  intermissionStartTimeBefore : Option String
  intermissionStartTimeAfter : Option String
  intermissionEndTimeBefore : Option String
  intermissionEndTimeAfter : Option String
  challengeStartTimeBefore : Option String
  challengeStartTimeAfter : Option String
  challengeEndTimeBefore : Option String
  challengeEndTimeAfter : Option String
  systestStartTimeBefore : Option String
  systestStartTimeAfter : Option String
  systestEndTimeBefore : Option String
  systestEndTimeAfter : Option String
  deriving Repr, DecidableEq

/-- A getSRMSchedule parameter map with every parameter absent. -/
def emptyScheduleParams : GetSRMScheduleParams :=
  { pageSize := none, pageIndex := none, sortColumn := none, sortOrder := none,
    statuses := none, types := none,
    registrationStartTimeBefore := none, registrationStartTimeAfter := none,
    registrationEndTimeBefore := none, registrationEndTimeAfter := none,
    codingStartTimeBefore := none, codingStartTimeAfter := none,
    codingEndTimeBefore := none, codingEndTimeAfter := none,
    intermissionStartTimeBefore := none, intermissionStartTimeAfter := none,
    intermissionEndTimeBefore := none, intermissionEndTimeAfter := none,
    challengeStartTimeBefore := none, challengeStartTimeAfter := none,
    challengeEndTimeBefore := none, challengeEndTimeAfter := none,
    systestStartTimeBefore := none, systestStartTimeAfter := none,
    systestEndTimeBefore := none, systestEndTimeAfter := none }

/-- Checks one phase-time pair (source lines 626-638): each present bound is
format-checked, and only when both bounds are present is the ordering
checked, with the error message naming the After bound as the one that
should be earlier. -/
def validatePhaseTime (error : Option ApiError) (phaseTimeBefore : Option String)
    (timeBeforeStr : String) (phaseTimeAfter : Option String) (timeEndStr : String) :
    Option ApiError :=
  let error :=
    match phaseTimeBefore with
    | some b => orError error (validateDate b timeBeforeStr SCHEDULE_DATE_FORMAT)
    | none => error
  let error :=
    match phaseTimeAfter with
    | some a => orError error (validateDate a timeEndStr SCHEDULE_DATE_FORMAT)
    | none => error
  match phaseTimeAfter, phaseTimeBefore with
  | some a, some b =>
    orError error (checkDates a b (timeEndStr ++ " should be earlier than " ++ timeBeforeStr))
  | _, _ => error

/-- Checks all ten phase-time pairs in order (source lines 648-671). -/
def checkPhaseTimes (error : Option ApiError) (p : GetSRMScheduleParams) : Option ApiError :=
  let error := validatePhaseTime error p.registrationStartTimeBefore "registrationStartTimeBefore"
    p.registrationStartTimeAfter "registrationStartTimeAfter"
  let error := validatePhaseTime error p.registrationEndTimeBefore "registrationEndTimeBefore"
    p.registrationEndTimeAfter "registrationEndTimeAfter"
  let error := validatePhaseTime error p.codingStartTimeBefore "codingStartTimeBefore"
    p.codingStartTimeAfter "codingStartTimeAfter"
  let error := validatePhaseTime error p.codingEndTimeBefore "codingEndTimeBefore"
    p.codingEndTimeAfter "codingEndTimeAfter"
  let error := validatePhaseTime error p.intermissionStartTimeBefore "intermissionStartTimeBefore"
    p.intermissionStartTimeAfter "intermissionStartTimeAfter"
  let error := validatePhaseTime error p.intermissionEndTimeBefore "intermissionEndTimeBefore"
    p.intermissionEndTimeAfter "intermissionEndTimeAfter"
  let error := validatePhaseTime error p.challengeStartTimeBefore "challengeStartTimeBefore"
    p.challengeStartTimeAfter "challengeStartTimeAfter"
  let error := validatePhaseTime error p.challengeEndTimeBefore "challengeEndTimeBefore"
    p.challengeEndTimeAfter "challengeEndTimeAfter"
  let error := validatePhaseTime error p.systestStartTimeBefore "systestStartTimeBefore"
    p.systestStartTimeAfter "systestStartTimeAfter"
  let error := validatePhaseTime error p.systestEndTimeBefore "systestEndTimeBefore"
    p.systestEndTimeAfter "systestEndTimeAfter"
  error

/-- The effective sort column of getSRMSchedule (source line 717). -/
def scheduleEffectiveSortColumn (p : GetSRMScheduleParams) : String :=
  jsToLower (jsOrOptStr p.sortColumn "registrationStartTime")

/-- The effective sort order of getSRMSchedule (source lines 716 and
722-724): lower-cased parameter defaulting to asc, overridden to desc when
sortOrder is absent and the sort column is registrationstarttime. -/
def scheduleEffectiveSortOrder (p : GetSRMScheduleParams) : String :=
  if p.sortOrder.isNone ∧ scheduleEffectiveSortColumn p = "registrationstarttime" then "desc"
  else jsToLower (jsOrOptStr p.sortOrder "asc")

/-- The effective page index of getSRMSchedule before the sentinel remap
(source line 719). -/
def scheduleEffectivePageIndex (p : GetSRMScheduleParams) : Int :=
  jsOrOptInt p.pageIndex 1

/-- The effective page size of getSRMSchedule before the sentinel remap
(source line 720). -/
def scheduleEffectivePageSize (p : GetSRMScheduleParams) : Int :=
  jsOrOptInt p.pageSize DEFAULT_PAGE_SIZE

/-- The paging and sorting checks of getSRMSchedule (source lines 728-738). -/
def getSRMSchedule_pagingSortError (p : GetSRMScheduleParams) : Option ApiError :=
  let allowedSort := getLowerCaseList ALLOWABLE_SCHEDULE_SORT_COLUMN
  let pageIndex := scheduleEffectivePageIndex p
  let pageSize := scheduleEffectivePageSize p
  let error0 := if p.pageIndex.isSome ∧ pageIndex ≠ -1 then checkDefined p.pageSize "pageSize" else none
  orError error0
    (orError (checkMaxNumber pageIndex MAX_INT "pageIndex")
      (orError (checkMaxNumber pageSize MAX_INT "pageSize")
        (orError (checkPageIndex pageIndex "pageIndex")
          (orError (checkPositiveInteger pageSize "pageSize")
            (orError (checkContains ["asc", "desc"] (scheduleEffectiveSortOrder p) "sortOrder")
              (checkContains allowedSort (scheduleEffectiveSortColumn p) "sortColumn"))))))

/-- The validation chain of getSRMSchedule (source lines 728-753): paging
and sorting checks, then the statuses and types subset checks, then the
phase-time checks. -/
def getSRMSchedule_error (p : GetSRMScheduleParams) : Option ApiError :=
  let error := getSRMSchedule_pagingSortError p
  let error :=
    match p.statuses with
    | some sts => orError error (checkSubset (jsSplitComma sts) VALID_ROUND_STATUS "statuses")
    | none => error
  let error :=
    match p.types with
    | some ts => orError error (checkSubset (jsSplitComma ts) VALID_ROUND_TYPES "types")
    | none => error
  checkPhaseTimes error p

/-- The sqlParams record of getSRMSchedule (source lines 773-778). -/
structure ScheduleSqlParams where
  firstRowIndex : Int
  pageSize : Int
  sortColumn : String
  sortOrder : String
  deriving Repr, DecidableEq

/-- The state of a validated getSRMSchedule request when it reaches query
execution. -/
structure SchedulePrepared where
  sqlParams : ScheduleSqlParams
  pageIndex : Int
  pageSize : Int
  deriving Repr, DecidableEq

/-- The sentinel remap and sqlParams construction of getSRMSchedule
(source lines 755-758 and 773-778), reached only when validation passed. -/
def schedulePreparedOf (p : GetSRMScheduleParams) : SchedulePrepared :=
  let pageIndex := scheduleEffectivePageIndex p
  let pageSize := scheduleEffectivePageSize p
  let pageIndex2 := if pageIndex = -1 then 1 else pageIndex
  let pageSize2 := if pageIndex = -1 then MAX_INT else pageSize
  { sqlParams :=
      { firstRowIndex := (pageIndex2 - 1) * pageSize2,
        pageSize := pageSize2,
        sortColumn := getSortColumnDBName (scheduleEffectiveSortColumn p),
        sortOrder := scheduleEffectiveSortOrder p },
    pageIndex := pageIndex2,
    pageSize := pageSize2 }

/-- The pre-query phase of getSRMSchedule#run. -/
def getSRMSchedule_prepare (p : GetSRMScheduleParams) : Except ApiError SchedulePrepared :=
  match getSRMSchedule_error p with
  | some e => .error e
  | none => .ok (schedulePreparedOf p)

/-- getSRMSchedule#run (source lines 701-838): validation aborts the
waterfall before the query templates are read or executed; otherwise the
filtered count and data queries run (abstracted by `db`) and the envelope
is built (source lines 788-805). -/
def getSRMSchedule_run (p : GetSRMScheduleParams) (db : ListQueryResults) :
    Except ApiError ListEnvelope :=
  match getSRMSchedule_prepare p with
  | .error e => .error e
  | .ok prep =>
    if db.data.length = 0 then
      .ok { total := 0, pageIndex := prep.pageIndex,
            pageSize := if p.pageIndex = some (-1) then 0 else prep.pageSize,
            data := [] }
    else
      .ok { total := db.count, pageIndex := prep.pageIndex,
            pageSize := if p.pageIndex = some (-1) then db.count else prep.pageSize,
            data := db.data }

/-- The ten phase-time pairs of getSRMSchedule, in the order checked by
checkPhaseTimes. -/
inductive PhasePair where
  | regStart
  | regEnd
  | codingStart
  | codingEnd
  | intermissionStart
  | intermissionEnd
  | challengeStart
  | challengeEnd
  | systestStart
  | systestEnd
  deriving Repr, DecidableEq

/-- The parameter name of the Before bound of a phase-time pair. -/
def PhasePair.beforeName : PhasePair → String
  | .regStart => "registrationStartTimeBefore"
  | .regEnd => "registrationEndTimeBefore"
  | .codingStart => "codingStartTimeBefore"
  | .codingEnd => "codingEndTimeBefore"
  | .intermissionStart => "intermissionStartTimeBefore"
  | .intermissionEnd => "intermissionEndTimeBefore"
  | .challengeStart => "challengeStartTimeBefore"
  | .challengeEnd => "challengeEndTimeBefore"
  | .systestStart => "systestStartTimeBefore"
  | .systestEnd => "systestEndTimeBefore"

/-- The parameter name of the After bound of a phase-time pair. -/
def PhasePair.afterName : PhasePair → String
  | .regStart => "registrationStartTimeAfter"
  | .regEnd => "registrationEndTimeAfter"
  | .codingStart => "codingStartTimeAfter"
  | .codingEnd => "codingEndTimeAfter"
  | .intermissionStart => "intermissionStartTimeAfter"
  | .intermissionEnd => "intermissionEndTimeAfter"
  | .challengeStart => "challengeStartTimeAfter"
  | .challengeEnd => "challengeEndTimeAfter"
  | .systestStart => "systestStartTimeAfter"
  | .systestEnd => "systestEndTimeAfter"

/-- A getSRMSchedule request whose only supplied parameters are the two
bounds of the given phase-time pair. -/
def schedulePhasePairRequest (k : PhasePair) (b a : String) : GetSRMScheduleParams :=
  match k with
  | .regStart => { emptyScheduleParams with registrationStartTimeBefore := some b, registrationStartTimeAfter := some a }
  | .regEnd => { emptyScheduleParams with registrationEndTimeBefore := some b, registrationEndTimeAfter := some a }
  | .codingStart => { emptyScheduleParams with codingStartTimeBefore := some b, codingStartTimeAfter := some a }
  | .codingEnd => { emptyScheduleParams with codingEndTimeBefore := some b, codingEndTimeAfter := some a }
  | .intermissionStart => { emptyScheduleParams with intermissionStartTimeBefore := some b, intermissionStartTimeAfter := some a }
  | .intermissionEnd => { emptyScheduleParams with intermissionEndTimeBefore := some b, intermissionEndTimeAfter := some a }
  | .challengeStart => { emptyScheduleParams with challengeStartTimeBefore := some b, challengeStartTimeAfter := some a }
  | .challengeEnd => { emptyScheduleParams with challengeEndTimeBefore := some b, challengeEndTimeAfter := some a }
  | .systestStart => { emptyScheduleParams with systestStartTimeBefore := some b, systestStartTimeAfter := some a }
  | .systestEnd => { emptyScheduleParams with systestEndTimeBefore := some b, systestEndTimeAfter := some a }

/-! ### getPracticeProblems (source lines 2384-2528) -/

/-- The flat parameter map of getPracticeProblems (all fields optional). -/
structure GetPracticeProblemsParams where
  pageIndex : Option Int
  pageSize : Option Int
  sortColumn : Option String
  sortOrder : Option String
  problemId : Option Int
  problemName : Option String
  problemTypes : Option String
  statuses : Option String
  myPointsLowerBound : Option Int
  myPointsUpperBound : Option Int
  pointsUpperBound : Option Int
  pointsLowerBound : Option Int
  difficulty : Option String
  deriving Repr, DecidableEq

/-- A getPracticeProblems parameter map with every parameter absent. -/
def emptyPracticeParams : GetPracticeProblemsParams :=
  { pageIndex := none, pageSize := none, sortColumn := none, sortOrder := none,
    problemId := none, problemName := none, problemTypes := none,
    statuses := none, myPointsLowerBound := none, myPointsUpperBound := none,
    pointsUpperBound := none, pointsLowerBound := none, difficulty := none }

/-- The paging, sorting and membership checks of getPracticeProblems
(source lines 2404-2409). -/
def getPracticeProblems_pagingSortError (p : GetPracticeProblemsParams) (caller : Caller) :
    Option ApiError :=
  let pageIndex := jsOrOptInt p.pageIndex 1
  let pageSize := jsOrOptInt p.pageSize 10
  let sortColumn := jsOrOptStr p.sortColumn "problemId"
  let sortOrder := jsOrOptStr p.sortOrder ASCENDING
  orError (checkPageIndex pageIndex "pageIndex")
    (orError (checkPositiveInteger pageSize "pageSize")
      (orError (checkMaxInt pageSize "pageSize")
        (orError (checkContains ["asc", "desc"] (jsToLower sortOrder) "sortOrder")
          (orError (checkSortColumn VALID_PRACTICE_PROBLEMS_SORT_COLUMN (jsToLower sortColumn))
            (checkMember caller "Only logged in user can access to this endpoint.")))))

/-- The validation chain of getPracticeProblems (source lines 2403-2455). -/
def getPracticeProblems_error (p : GetPracticeProblemsParams) (caller : Caller) : Option ApiError :=
  let error := getPracticeProblems_pagingSortError p caller
  let error :=
    match p.statuses with
    | some sts => orError error (checkSubset (jsSplitComma sts) VALID_PRACTICE_PROBLEMS_STATUS "statuses")
    | none => error
  let error :=
    match p.problemName with
    | some pn =>
      if pn.length > 32 then
        orError error (some (.illegalArgument "The problemName should less than 32 characters."))
      else error
    | none => error
  let error :=
    match p.difficulty with
    | some d => orError error (checkSubset (jsSplitComma d) VALID_PRACTICE_PROBLEMS_DIFFICULTY "difficulty")
    | none => error
  let error :=
    match p.problemTypes with
    | some t => orError error (checkSubset (jsSplitComma t) VALID_PRACTICE_PROBLEMS_TYPE "problemTypes")
    | none => error
  let error :=
    if p.pointsLowerBound.isSome ∨ p.pointsUpperBound.isSome then
      let plb := jsOrOptInt p.pointsLowerBound 0
      let pub := jsOrOptInt p.pointsUpperBound MAX_INT
      let error := orError error
        (orError (checkMaxInt plb "pointsLowerBound")
          (orError (checkNonNegativeInteger plb "pointsLowerBound")
            (orError (checkPositiveInteger pub "pointsUpperBound")
              (checkMaxInt pub "pointsUpperBound"))))
      if plb > pub then
        orError error (some (.illegalArgument "The pointsLowerBound should less than pointsUpperBound or max value of integer."))
      else error
    else error
  let error :=
    if p.myPointsLowerBound.isSome ∨ p.myPointsUpperBound.isSome then
      let plb := jsOrOptInt p.myPointsLowerBound 0
      let pub := jsOrOptInt p.myPointsUpperBound MAX_INT
      let error := orError error
        (orError (checkNonNegativeInteger plb "myPointsLowerBound")
          (orError (checkMaxInt plb "myPointsLowerBound")
            (orError (checkPositiveInteger pub "myPointsUpperBound")
              (checkMaxInt pub "myPointsUpperBound"))))
      if plb > pub then
        orError error (some (.illegalArgument "The myPointsLowerBound should less than myPointsUpperBound or max value of integer."))
      else error
    else error
  error

/-- getPracticeProblems (source lines 2384-2501): validation aborts the
waterfall before the query templates are read or executed; otherwise the
filtered count and data queries run (abstracted by `db`) and the response
is built (source lines 2484-2491) with no special case for an empty data
result: total always echoes the count scalar. -/
def getPracticeProblems_run (p : GetPracticeProblemsParams) (caller : Caller)
    (db : ListQueryResults) : Except ApiError ListEnvelope :=
  match getPracticeProblems_error p caller with
  | some e => .error e
  | none =>
    .ok { total := db.count,
          pageIndex := jsOrOptInt p.pageIndex 1,
          pageSize := jsOrOptInt p.pageSize 10,
          data := db.data }

/-! ### createSRMContest / updateSRMContest (source lines 1071-1638) -/

/-- The flat parameter map of the SRM-contest admin write endpoints.
Numeric fields hold the parseInt result (`none` models both an absent
parameter and a JS NaN parse, each of which the id validators reject). -/
structure SRMContestParams where
  id : Option Int
  contestId : Option Int
  name : Option String
  startDate : Option String
  endDate : Option String
  status : Option String
  groupId : Option Int
  adText : Option String
  adStart : Option String
  adEnd : Option String
  adTask : Option String
  adCommand : Option String
  activateMenu : Option Int
  seasonId : Option Int
  deriving Repr, DecidableEq

/-- An SRMContestParams map with every parameter absent. -/
def emptyContestParams : SRMContestParams :=
  { id := none, contestId := none, name := none, startDate := none,
    endDate := none, status := none, groupId := none, adText := none,
    adStart := none, adEnd := none, adTask := none, adCommand := none,
    activateMenu := none, seasonId := none }

/-- The existence-check oracles of the admin write path (the get_srm_contest,
get_group and get_season queries). -/
structure AdminWriteDb where
  contestExists : Int → Bool
  groupExists : Int → Bool
  seasonExists : Int → Bool

/-- The id validator (source lines 1082-1111): bounds check, then the
contest-existence query. -/
def validateIdField (p : SRMContestParams) (db : AdminWriteDb) : Except ApiError Int :=
  match checkIdParameter p.id "id" with
  | some e => .error e
  | none =>
    match p.id with
    | some i => if db.contestExists i then .ok i else .error (.illegalArgument "id is unknown.")
    | none => .error (.illegalArgument "id should be number.")

/-- The contestId validator (source lines 1112-1120). -/
def validateContestIdField (p : SRMContestParams) : Except ApiError Int :=
  match checkIdParameter p.contestId "contestId" with
  | some e => .error e
  | none =>
    match p.contestId with
    | some c => .ok c
    | none => .error (.illegalArgument "contestId should be number.")

/-- The name validator (source lines 1121-1131): populated, length at most
50, no unescaped quotes. -/
def validateNameField (p : SRMContestParams) : Except ApiError String :=
  match p.name with
  | none =>
    match checkStringPopulated none "name" with
    | some e => .error e
    | none => .error (.illegalArgument "name should be non-null and non-empty string.")
  | some n =>
    match orError (checkStringPopulated (some n) "name")
        (orError (checkExceedsLength n 50 "name") (checkIllegalCharacters n "name")) with
    | some e => .error e
    | none => .ok n

/-- The startDate validator (source lines 1132-1144): nullable, else the
fixed DATE_FORMAT. -/
def validateStartDateField (p : SRMContestParams) : Except ApiError (Option String) :=
  match p.startDate with
  | none => .ok none
  | some s =>
    match validateDate s "startDate" DATE_FORMAT with
    | some e => .error e
    | none => .ok (some s)

/-- The endDate validator (source lines 1145-1166): nullable, format check,
then the ordering dependency on the validated startDate
(moment(startDate).isBefore(endDate) must hold when startDate is present). -/
def validateEndDateField (p : SRMContestParams) (startDate : Option String) :
    Except ApiError (Option String) :=
  match p.endDate with
  | none => .ok none
  | some s =>
    match validateDate s "endDate" DATE_FORMAT with
    | some e => .error e
    | none =>
      match startDate with
      | none => .ok (some s)
      | some sd =>
        match parseSimpleDate sd, parseSimpleDate s with
        | some a, some b =>
          if instant a < instant b then .ok (some s)
          else .error (.illegalArgument "startDate does not precede endDate.")
        | _, _ => .error (.illegalArgument "startDate does not precede endDate.")

/-- The status validator (source lines 1167-1181): nullable, populated,
length exactly 1, matching the character class AFPI. -/
def validateStatusField (p : SRMContestParams) : Except ApiError (Option String) :=
  match p.status with
  | none => .ok none
  | some s =>
    match orError (checkStringPopulated (some s) "status")
        (orError (if s.length ≠ 1 then some (.illegalArgument "status must be of length 1") else none)
          (if s = "A" ∨ s = "F" ∨ s = "P" ∨ s = "I" then none
           else some (.illegalArgument "status unknown."))) with
    | some e => .error e
    | none => .ok (some s)

/-- The groupId validator (source lines 1182-1216): nullable, integer check,
then the group-existence query. -/
def validateGroupIdField (p : SRMContestParams) (db : AdminWriteDb) :
    Except ApiError (Option Int) :=
  match p.groupId with
  | none => .ok none
  | some g =>
    match checkInteger g "groupId" with
    | some e => .error e
    | none =>
      if db.groupExists g then .ok (some g)
      else .error (.illegalArgument "groupId is unknown.")

/-- The adText validator (source lines 1217-1231). -/
def validateAdTextField (p : SRMContestParams) : Except ApiError (Option String) :=
  match p.adText with
  | none => .ok none
  | some t =>
    match orError (checkString t "adText")
        (orError (checkExceedsLength t 250 "adText") (checkIllegalCharacters t "adText")) with
    | some e => .error e
    | none => .ok (some t)

/-- The adStart validator (source lines 1232-1244). -/
def validateAdStartField (p : SRMContestParams) : Except ApiError (Option String) :=
  match p.adStart with
  | none => .ok none
  | some s =>
    match validateDate s "adStart" DATE_FORMAT with
    | some e => .error e
    | none => .ok (some s)

/-- The adEnd validator (source lines 1245-1266), with the ordering
dependency on the validated adStart. -/
def validateAdEndField (p : SRMContestParams) (adStart : Option String) :
    Except ApiError (Option String) :=
  match p.adEnd with
  | none => .ok none
  | some s =>
    match validateDate s "adEnd" DATE_FORMAT with
    | some e => .error e
    | none =>
      match adStart with
      | none => .ok (some s)
      | some sd =>
        match parseSimpleDate sd, parseSimpleDate s with
        | some a, some b =>
          if instant a < instant b then .ok (some s)
          else .error (.illegalArgument "adStart does not precede adEnd.")
        | _, _ => .error (.illegalArgument "adStart does not precede adEnd.")

/-- The adTask validator (source lines 1267-1281). -/
def validateAdTaskField (p : SRMContestParams) : Except ApiError (Option String) :=
  match p.adTask with
  | none => .ok none
  | some t =>
    match orError (checkString t "adTask")
        (orError (checkExceedsLength t 30 "adTask") (checkIllegalCharacters t "adTask")) with
    | some e => .error e
    | none => .ok (some t)

/-- The adCommand validator (source lines 1282-1296). -/
def validateAdCommandField (p : SRMContestParams) : Except ApiError (Option String) :=
  match p.adCommand with
  | none => .ok none
  | some t =>
    match orError (checkString t "adCommand")
        (orError (checkExceedsLength t 30 "adCommand") (checkIllegalCharacters t "adCommand")) with
    | some e => .error e
    | none => .ok (some t)

/-- The activateMenu validator (source lines 1297-1310). -/
def validateActivateMenuField (p : SRMContestParams) : Except ApiError (Option Int) :=
  match p.activateMenu with
  | none => .ok none
  | some a =>
    match checkInteger a "activateMenu" with
    | some e => .error e
    | none => .ok (some a)

/-- The seasonId validator (source lines 1311-1345): nullable, id bounds,
then the season-existence query. -/
def validateSeasonIdField (p : SRMContestParams) (db : AdminWriteDb) :
    Except ApiError (Option Int) :=
  match p.seasonId with
  | none => .ok none
  | some s =>
    match checkIdParameter (some s) "seasonId" with
    | some e => .error e
    | none =>
      if db.seasonExists s then .ok (some s)
      else .error (.illegalArgument "seasonId is unknown.")

/-- The validated, typed parameter set of updateSRMContest. -/
structure ContestValidated where
  id : Int
  contestId : Int
  name : String
  startDate : Option String
  endDate : Option String
  status : Option String
  groupId : Option Int
  adText : Option String
  adStart : Option String
  adEnd : Option String
  adTask : Option String
  adCommand : Option String
  activateMenu : Option Int
  seasonId : Option Int
  deriving Repr, DecidableEq

/-- The validate step of updateSRMContest (source lines 1541-1565,
delegating to validateAndPrepareSRMContestApiArguments, lines 1078-1400):
every field validator must succeed; under the async.auto scheduling a
single failing validator aborts the request with its error and prevents
the dependent sqlParams and write steps from running.  The embedding
evaluates the validators in the declared argument order. -/
def validateUpdateSRMContest (p : SRMContestParams) (db : AdminWriteDb) :
    Except ApiError ContestValidated := do
  let id ← validateIdField p db
  let contestId ← validateContestIdField p
  let name ← validateNameField p
  let startDate ← validateStartDateField p
  let endDate ← validateEndDateField p startDate
  let status ← validateStatusField p
  let groupId ← validateGroupIdField p db
  let adText ← validateAdTextField p
  let adStart ← validateAdStartField p
  let adEnd ← validateAdEndField p adStart
  let adTask ← validateAdTaskField p
  let adCommand ← validateAdCommandField p
  let activateMenu ← validateActivateMenuField p
  let seasonId ← validateSeasonIdField p db
  pure { id := id, contestId := contestId, name := name, startDate := startDate,
         endDate := endDate, status := status, groupId := groupId,
         adText := adText, adStart := adStart, adEnd := adEnd, adTask := adTask,
         adCommand := adCommand, activateMenu := activateMenu, seasonId := seasonId }

/-- One query execution of the updateSRMContest write path. -/
inductive QueryCall where
  | insertSrmContest
  | updateSrmContest
  | updateSrmContestId (contestId : Int) (id : Int)
  | deleteSrmContest (id : Int)
  deriving Repr, DecidableEq

/-- The write steps of updateSRMContest (source lines 1566-1626): the
updateContestId task runs the four-query series exactly when the validated
id differs from the validated contestId (its async result is then the
series result array, otherwise undefined), and the dependent updateContest
task runs the plain update exactly when that result is falsy. -/
def updateSRMContest_steps (v : ContestValidated) : List QueryCall :=
  let updateContestIdResult : Option (List QueryCall) :=
    if v.id ≠ v.contestId then
      some [QueryCall.insertSrmContest, QueryCall.updateSrmContest,
            QueryCall.updateSrmContestId v.contestId v.id, QueryCall.deleteSrmContest v.id]
    else none
  let trace := updateContestIdResult.getD []
  if updateContestIdResult.isNone then trace ++ [QueryCall.updateSrmContest] else trace

/-- updateSRMContest#run (source lines 1532-1637): admin check, validation,
then the write steps; the result is the ordered list of store writes. -/
def updateSRMContest_run (p : SRMContestParams) (caller : Caller) (db : AdminWriteDb) :
    Except ApiError (List QueryCall) :=
  match checkAdmin caller "Authorized access only." "Admin access only." with
  | some e => .error e
  | none =>
    match validateUpdateSRMContest p db with
    | .error e => .error e
    | .ok v => .ok (updateSRMContest_steps v)

/-! ### Concrete instances used by witnesses and counterexamples -/

/-- A store oracle in which only contest 1 exists and no groups or seasons. -/
def witnessDb : AdminWriteDb :=
  { contestExists := fun i => i == 1,
    groupExists := fun _ => false,
    seasonExists := fun _ => false }

/-- A searchSRMChallenges request supplying the allow-listed but non-default
sort column submissionEndDate while omitting sortOrder. -/
def c8Params : SearchSRMChallengesParams :=
  { emptySearchParams with sortColumn := some "submissionEndDate", challengeName := some "a" }

/-- The Before bound of the round-trip scenario of the spec. -/
def janDate : String := "2020-01-01T00:00:00.000+0000"

/-- The After bound of the round-trip scenario of the spec. -/
def febDate : String := "2020-02-01T00:00:00.000+0000"

/-- The parsed value of janDate. -/
def janParsed : DateTime :=
  { year := 2020, month := 1, day := 1, hour := 0, minute := 0, second := 0,
    millis := 0, offsetMinutes := 0 }

/-- The parsed value of febDate. -/
def febParsed : DateTime :=
  { year := 2020, month := 2, day := 1, hour := 0, minute := 0, second := 0,
    millis := 0, offsetMinutes := 0 }

/-! ### Lemmas -/

/-- quoteScanErr, started in the clean state, detects exactly the strings
rejected by the greedy escaped-pair reading of the spec. -/
lemma quoteScanErr_false_eq (cs : List Char) :
    quoteScanErr false cs = !specEscapedQuotesOk cs := by
  induction cs using specEscapedQuotesOk.induct with
  | case1 => rfl
  | case2 rest ih => simpa [quoteScanErr, specEscapedQuotesOk] using ih
  | case3 x h =>
    cases x with
    | nil => rfl
    | cons c r =>
      have hc : ¬(c = '"') := fun hc => h r (by rw [hc])
      simp [quoteScanErr, specEscapedQuotesOk, hc]
  | case4 c rest h hne ih =>
    have hc : ¬(c = '"') := hne
    simp [quoteScanErr, specEscapedQuotesOk, hc, ih]

/-- checkIllegalCharacters rejects a string exactly when some double quote
is not part of an adjacent escaped pair. -/
lemma checkIllegalCharacters_isSome (s name : String) :
    (checkIllegalCharacters s name).isSome = true ↔ specEscapedQuotesOk s.data = false := by
  unfold checkIllegalCharacters
  by_cases hs : s = "\""
  · subst hs
    simp
    rfl
  · simp [hs, quoteScanErr_false_eq]

/-- Inversion of a successful Except bind. -/
lemma bind_ok {α β : Type} {ma : Except ApiError α} {f : α → Except ApiError β} {b : β}
    (h : (ma >>= f) = .ok b) : ∃ a, ma = .ok a ∧ f a = .ok b := by
  cases ma with
  | error e => simp [Bind.bind, Except.bind] at h
  | ok a => exact ⟨a, rfl, by simpa [Bind.bind, Except.bind] using h⟩

/-- A successful updateSRMContest validation contains a successful name
validation. -/
lemma validate_ok_name {p : SRMContestParams} {db : AdminWriteDb} {v : ContestValidated}
    (h : validateUpdateSRMContest p db = .ok v) : ∃ n, validateNameField p = .ok n := by
  unfold validateUpdateSRMContest at h
  obtain ⟨i, h1, h⟩ := bind_ok h
  obtain ⟨ci, h2, h⟩ := bind_ok h
  obtain ⟨n, h3, h⟩ := bind_ok h
  exact ⟨n, h3⟩

/-- A successful updateSRMContest validation contains a successful adText
validation. -/
lemma validate_ok_adText {p : SRMContestParams} {db : AdminWriteDb} {v : ContestValidated}
    (h : validateUpdateSRMContest p db = .ok v) : ∃ t, validateAdTextField p = .ok t := by
  unfold validateUpdateSRMContest at h
  obtain ⟨i, h1, h⟩ := bind_ok h
  obtain ⟨ci, h2, h⟩ := bind_ok h
  obtain ⟨n, h3, h⟩ := bind_ok h
  obtain ⟨sd, h4, h⟩ := bind_ok h
  obtain ⟨ed, h5, h⟩ := bind_ok h
  obtain ⟨st, h6, h⟩ := bind_ok h
  obtain ⟨g, h7, h⟩ := bind_ok h
  obtain ⟨t, h8, h⟩ := bind_ok h
  exact ⟨t, h8⟩

/-- The JS or-else of an error chain whose right side is an error is an
error. -/
lemma orError_some_right (a : Option ApiError) (e : ApiError) :
    ∃ x, orError a (some e) = some x := by
  cases a <;> simp [orError]

/-- A name with an unescaped quote never validates. -/
lemma validateNameField_not_ok {p : SRMContestParams} {n : String}
    (hn : p.name = some n) (hq : specEscapedQuotesOk n.data = false) :
    ∀ m, validateNameField p ≠ .ok m := by
  intro m hm
  simp only [validateNameField, hn] at hm
  have hsome : (checkIllegalCharacters n "name").isSome = true :=
    (checkIllegalCharacters_isSome n "name").mpr hq
  cases hcic : checkIllegalCharacters n "name" with
  | none => rw [hcic] at hsome; simp at hsome
  | some e =>
    rw [hcic] at hm
    obtain ⟨x1, hx1⟩ := orError_some_right (checkExceedsLength n 50 "name") e
    rw [hx1] at hm
    obtain ⟨x2, hx2⟩ := orError_some_right (checkStringPopulated (some n) "name") x1
    rw [hx2] at hm
    simp at hm

/-- An adText with an unescaped quote never validates. -/
lemma validateAdTextField_not_ok {p : SRMContestParams} {t : String}
    (hn : p.adText = some t) (hq : specEscapedQuotesOk t.data = false) :
    ∀ m, validateAdTextField p ≠ .ok m := by
  intro m hm
  simp only [validateAdTextField, hn] at hm
  have hsome : (checkIllegalCharacters t "adText").isSome = true :=
    (checkIllegalCharacters_isSome t "adText").mpr hq
  cases hcic : checkIllegalCharacters t "adText" with
  | none => rw [hcic] at hsome; simp at hsome
  | some e =>
    rw [hcic] at hm
    obtain ⟨x1, hx1⟩ := orError_some_right (checkExceedsLength t 250 "adText") e
    rw [hx1] at hm
    obtain ⟨x2, hx2⟩ := orError_some_right (checkString t "adText") x1
    rw [hx2] at hm
    simp at hm

/-- A pair with both bounds absent leaves the error unchanged. -/
lemma validatePhaseTime_none_none (e : Option ApiError) (nb na : String) :
    validatePhaseTime e none nb none na = e := rfl

/-- validatePhaseTime passes an already-present error through. -/
lemma validatePhaseTime_some (e : ApiError) (b : Option String) (nb : String)
    (a : Option String) (na : String) :
    validatePhaseTime (some e) b nb a na = some e := by
  cases b <;> cases a <;> rfl

/-- checkPhaseTimes passes an already-present error through. -/
lemma checkPhaseTimes_some (e : ApiError) (p : GetSRMScheduleParams) :
    checkPhaseTimes (some e) p = some e := by
  simp [checkPhaseTimes, validatePhaseTime_some]

/-- The schedule paging and sorting checks pass on a request that omits
every paging and sorting parameter. -/
lemma schedule_pagingSortError_base {p : GetSRMScheduleParams}
    (h1 : p.pageSize = none) (h2 : p.pageIndex = none)
    (h3 : p.sortColumn = none) (h4 : p.sortOrder = none) :
    getSRMSchedule_pagingSortError p = none := by
  simp only [getSRMSchedule_pagingSortError, scheduleEffectivePageIndex,
    scheduleEffectivePageSize, scheduleEffectiveSortOrder, scheduleEffectiveSortColumn,
    h1, h2, h3, h4]
  decide

/-- The practice-problems paging, sorting and membership checks pass for a
logged-in member who omits every paging and sorting parameter. -/
lemma practice_pagingSortError_base {p : GetPracticeProblemsParams}
    (h1 : p.pageIndex = none) (h2 : p.pageSize = none)
    (h3 : p.sortColumn = none) (h4 : p.sortOrder = none) :
    getPracticeProblems_pagingSortError p .member = none := by
  simp only [getPracticeProblems_pagingSortError, h1, h2, h3, h4]
  decide

/-- A wire date that parses passes the schedule-format validator. -/
lemma validateDate_schedule_ok {s : String} (h : (parseScheduleDate s).isSome = true)
    (name : String) : validateDate s name SCHEDULE_DATE_FORMAT = none := by
  simp [validateDate, h]

/-- checkDates fails when the first date is not strictly earlier. -/
lemma checkDates_not_lt {a b : String} {ta tb : DateTime} {msg : String}
    (ha : parseScheduleDate a = some ta) (hb : parseScheduleDate b = some tb)
    (h : ¬ instant ta < instant tb) :
    checkDates a b msg = some (.illegalArgument msg) := by
  simp [checkDates, ha, hb, h]

/-- A phase-time pair whose After bound is not earlier than its Before bound
is rejected with the message naming both bounds. -/
lemma validatePhaseTime_pair (nb na : String) {b a : String} {tb ta : DateTime}
    (hb : parseScheduleDate b = some tb) (ha : parseScheduleDate a = some ta)
    (h : ¬ instant ta < instant tb) :
    validatePhaseTime none (some b) nb (some a) na
      = some (.illegalArgument (na ++ " should be earlier than " ++ nb)) := by
  simp only [validatePhaseTime]
  rw [validateDate_schedule_ok (by rw [hb]; rfl), validateDate_schedule_ok (by rw [ha]; rfl)]
  simp [checkDates_not_lt ha hb h]

/-- A schedule validation error aborts the run before any query. -/
lemma getSRMSchedule_run_error {p : GetSRMScheduleParams} {e : ApiError}
    (h : getSRMSchedule_error p = some e) (db : ListQueryResults) :
    getSRMSchedule_run p db = .error e := by
  simp [getSRMSchedule_run, getSRMSchedule_prepare, h]

/-- A practice-problems validation error aborts the run before any query. -/
lemma getPracticeProblems_run_error {p : GetPracticeProblemsParams} {c : Caller} {e : ApiError}
    (h : getPracticeProblems_error p c = some e) (db : ListQueryResults) :
    getPracticeProblems_run p c db = .error e := by
  simp [getPracticeProblems_run, h]

/-- Inversion of a successful searchSRMChallenges preparation. -/
lemma searchSRMChallenges_prepare_ok {p : SearchSRMChallengesParams} {prep : SearchPrepared}
    (h : searchSRMChallenges_prepare p = .ok prep) :
    ∃ cn, p.challengeName = some cn ∧ searchSRMChallenges_error p cn = none
      ∧ prep = searchPreparedOf p cn := by
  unfold searchSRMChallenges_prepare at h
  cases hcn : p.challengeName with
  | none => simp only [hcn] at h; exact Except.noConfusion h
  | some cn =>
    simp only [hcn] at h
    cases he : searchSRMChallenges_error p cn with
    | some e => simp only [he] at h; exact Except.noConfusion h
    | none =>
      simp only [he, Except.ok.injEq] at h
      exact ⟨cn, rfl, he, h.symm⟩

/-- Inversion of a successful getSRMSchedule preparation. -/
lemma getSRMSchedule_prepare_ok {p : GetSRMScheduleParams} {prep : SchedulePrepared}
    (h : getSRMSchedule_prepare p = .ok prep) :
    getSRMSchedule_error p = none ∧ prep = schedulePreparedOf p := by
  unfold getSRMSchedule_prepare at h
  cases he : getSRMSchedule_error p with
  | some e => simp only [he] at h; exact Except.noConfusion h
  | none =>
    simp only [he, Except.ok.injEq] at h
    exact ⟨rfl, h.symm⟩

/-- On a request supplying only phase-time parameters, the schedule
validation outcome is exactly the phase-time check. -/
lemma getSRMSchedule_error_phase_only {p : GetSRMScheduleParams}
    (h1 : p.pageSize = none) (h2 : p.pageIndex = none) (h3 : p.sortColumn = none)
    (h4 : p.sortOrder = none) (h5 : p.statuses = none) (h6 : p.types = none) :
    getSRMSchedule_error p = checkPhaseTimes none p := by
  simp only [getSRMSchedule_error, h5, h6,
    schedule_pagingSortError_base h1 h2 h3 h4]

/-! ### Claims -/

/-- C1: the embedded-quote safety validator checkIllegalCharacters returns
an error exactly when the string contains a double quote that is not
immediately followed by a second double quote acting as an escape (the
greedy pairing predicate specEscapedQuotesOk, which rejects a trailing lone
quote and the one-character quote string), and a value so rejected never
reaches query composition: an updateSRMContest request whose name or adText
carries an unescaped quote yields an error and never produces a write
trace, for every caller and store state. -/
theorem claim_C1_embedded_quote_validator :
    (∀ (s name : String),
       (checkIllegalCharacters s name).isSome = true ↔ specEscapedQuotesOk s.data = false)
  ∧ (∀ (p : SRMContestParams) (c : Caller) (db : AdminWriteDb) (n : String),
       p.name = some n → specEscapedQuotesOk n.data = false →
       ∀ t, updateSRMContest_run p c db ≠ .ok t)
  ∧ (∀ (p : SRMContestParams) (c : Caller) (db : AdminWriteDb) (a : String),
       p.adText = some a → specEscapedQuotesOk a.data = false →
       ∀ t, updateSRMContest_run p c db ≠ .ok t) := by
  refine ⟨checkIllegalCharacters_isSome, ?_, ?_⟩
  · intro p c db n hn hq t hrun
    unfold updateSRMContest_run at hrun
    cases hca : checkAdmin c "Authorized access only." "Admin access only." with
    | some e => simp only [hca] at hrun; exact Except.noConfusion hrun
    | none =>
      simp only [hca] at hrun
      cases hv : validateUpdateSRMContest p db with
      | error e => simp only [hv] at hrun; exact Except.noConfusion hrun
      | ok v =>
        obtain ⟨m, hm⟩ := validate_ok_name hv
        exact validateNameField_not_ok hn hq m hm
  · intro p c db a ha hq t hrun
    unfold updateSRMContest_run at hrun
    cases hca : checkAdmin c "Authorized access only." "Admin access only." with
    | some e => simp only [hca] at hrun; exact Except.noConfusion hrun
    | none =>
      simp only [hca] at hrun
      cases hv : validateUpdateSRMContest p db with
      | error e => simp only [hv] at hrun; exact Except.noConfusion hrun
      | ok v =>
        obtain ⟨m, hm⟩ := validate_ok_adText hv
        exact validateAdTextField_not_ok ha hq m hm

/-- Witness for C1: the injection string of the spec is rejected, and an
admin update request whose name is the one-character quote string never
yields a write trace. -/
theorem claim_C1_witness :
    ((checkIllegalCharacters "Bob\" OR 1=1" "name").isSome = true
       ↔ specEscapedQuotesOk ("Bob\" OR 1=1" : String).data = false)
    ∧ updateSRMContest_run
        { emptyContestParams with id := some 1, contestId := some 1, name := some "\"" }
        .admin witnessDb ≠ .ok [QueryCall.updateSrmContest] :=
  ⟨claim_C1_embedded_quote_validator.1 "Bob\" OR 1=1" "name",
   claim_C1_embedded_quote_validator.2.1 _ .admin witnessDb "\"" rfl (by decide)
     [QueryCall.updateSrmContest]⟩

/-- C9: a searchSRMChallenges request with challengeName absent dereferences
the undefined parameter and throws before any validation or query, for
every database state; and the JS or-else fallback in the challengeName
expression is unreachable because the percent-wrapped concatenation is
never empty. -/
theorem claim_C9_challenge_name_throw :
    (∀ (p : SearchSRMChallengesParams) (db : ListQueryResults),
       p.challengeName = none → searchSRMChallenges_run p db = .error .thrownTypeError)
  ∧ (∀ s : String, searchChallengeNameValue s = "%" ++ jsToLower s ++ "%") := by
  constructor
  · intro p db h
    simp only [searchSRMChallenges_run, searchSRMChallenges_prepare, h]
  · intro s
    have hpct : ("%" : String).length = 1 := rfl
    have h1 : ("%" ++ jsToLower s ++ "%").length = (jsToLower s).length + 2 := by
      rw [String.length_append, String.length_append, hpct]
      omega
    have hne : ¬("%" ++ jsToLower s ++ "%" = "") := by
      intro he
      rw [he] at h1
      simp at h1
    simp [searchChallengeNameValue, jsOrString, hne]

/-- Witness for C9 at a concrete request and string. -/
theorem claim_C9_witness :
    searchSRMChallenges_run emptySearchParams { data := [], count := 0 }
      = .error .thrownTypeError
    ∧ searchChallengeNameValue "Xy" = "%" ++ jsToLower "Xy" ++ "%" :=
  ⟨claim_C9_challenge_name_throw.1 emptySearchParams { data := [], count := 0 } rfl,
   claim_C9_challenge_name_throw.2 "Xy"⟩

/-- C7: once an updateSRMContest request validates, a changed identifier
performs exactly insert, update-by-new-id, relink, delete-old-id in that
order without the plain update step, while an unchanged identifier performs
only the plain update. -/
theorem claim_C7_update_steps :
    ∀ (p : SRMContestParams) (db : AdminWriteDb) (v : ContestValidated),
      validateUpdateSRMContest p db = .ok v →
      (v.id ≠ v.contestId →
        updateSRMContest_run p .admin db
          = .ok [QueryCall.insertSrmContest, QueryCall.updateSrmContest,
                 QueryCall.updateSrmContestId v.contestId v.id,
                 QueryCall.deleteSrmContest v.id])
      ∧ (v.id = v.contestId →
        updateSRMContest_run p .admin db = .ok [QueryCall.updateSrmContest]) := by
  intro p db v hv
  constructor
  · intro hne
    simp [updateSRMContest_run, checkAdmin, hv, updateSRMContest_steps, hne]
  · intro heq
    simp [updateSRMContest_run, checkAdmin, hv, updateSRMContest_steps, heq]

/-- Witness for C7: a validated request changing contest id 1 to 2 produces
the four-step trace, and one keeping id 1 produces only the plain update. -/
theorem claim_C7_witness :
    updateSRMContest_run
      { emptyContestParams with id := some 1, contestId := some 2, name := some "n" }
      .admin witnessDb
      = .ok [QueryCall.insertSrmContest, QueryCall.updateSrmContest,
             QueryCall.updateSrmContestId 2 1, QueryCall.deleteSrmContest 1]
    ∧ updateSRMContest_run
      { emptyContestParams with id := some 1, contestId := some 1, name := some "n" }
      .admin witnessDb
      = .ok [QueryCall.updateSrmContest] :=
  ⟨(claim_C7_update_steps
      { emptyContestParams with id := some 1, contestId := some 2, name := some "n" }
      witnessDb
      ⟨1, 2, "n", none, none, none, none, none, none, none, none, none, none, none⟩
      rfl).1 (by decide),
   (claim_C7_update_steps
      { emptyContestParams with id := some 1, contestId := some 1, name := some "n" }
      witnessDb
      ⟨1, 1, "n", none, none, none, none, none, none, none, none, none, none, none⟩
      rfl).2 rfl⟩

/-- Counterexample to C3 as stated: the practice-problems endpoint does not
short-circuit the empty data case; with zero data rows and a count scalar
of 5 it reports total 5, not 0. -/
theorem claim_C3_counterexample :
    getPracticeProblems_run emptyPracticeParams .member { data := [], count := 5 }
      = .ok { total := 5, pageIndex := 1, pageSize := 10, data := [] }
    ∧ (5 : Int) ≠ 0 :=
  ⟨rfl, by decide⟩

/-- C3 (amended): for searchSRMChallenges and getSRMSchedule, zero data
rows yield the envelope with total 0 regardless of the count scalar, empty
data, and pageIndex/pageSize echoed per the pagination rules; the
practice-problems endpoint instead always reports the count scalar as
total (with the data rows passed through). -/
theorem claim_C3_empty_result_envelope :
    (∀ (p : SearchSRMChallengesParams) (prep : SearchPrepared) (db : ListQueryResults),
       searchSRMChallenges_prepare p = .ok prep → db.data.length = 0 →
       searchSRMChallenges_run p db
         = .ok { total := 0, pageIndex := prep.pageIndex,
                 pageSize := if p.pageIndex = some (-1) then 0 else prep.pageSize,
                 data := [] })
  ∧ (∀ (p : GetSRMScheduleParams) (prep : SchedulePrepared) (db : ListQueryResults),
       getSRMSchedule_prepare p = .ok prep → db.data.length = 0 →
       getSRMSchedule_run p db
         = .ok { total := 0, pageIndex := prep.pageIndex,
                 pageSize := if p.pageIndex = some (-1) then 0 else prep.pageSize,
                 data := [] })
  ∧ (∀ (p : GetPracticeProblemsParams) (c : Caller) (db : ListQueryResults)
       (env : ListEnvelope),
       getPracticeProblems_run p c db = .ok env →
       env.total = db.count ∧ env.data = db.data) := by
  refine ⟨?_, ?_, ?_⟩
  · intro p prep db hp hd
    simp [searchSRMChallenges_run, hp, hd]
  · intro p prep db hp hd
    simp [getSRMSchedule_run, getSRMSchedule_prepare,
      (getSRMSchedule_prepare_ok hp).1, (getSRMSchedule_prepare_ok hp).2, hd]
  · intro p c db env h
    simp only [getPracticeProblems_run] at h
    cases he : getPracticeProblems_error p c with
    | some e => simp only [he] at h; exact Except.noConfusion h
    | none =>
      simp only [he, Except.ok.injEq] at h
      subst h
      exact ⟨rfl, rfl⟩

/-- Witness for C3 (amended) at concrete requests and database states. -/
theorem claim_C3_witness :
    searchSRMChallenges_run { emptySearchParams with challengeName := some "a" }
      { data := [], count := 9 }
      = .ok { total := 0, pageIndex := 1, pageSize := 50, data := [] }
    ∧ getSRMSchedule_run emptyScheduleParams { data := [], count := 9 }
      = .ok { total := 0, pageIndex := 1, pageSize := 50, data := [] }
    ∧ ({ total := 5, pageIndex := 1, pageSize := 10, data := [] } : ListEnvelope).total
        = ({ data := [], count := 5 } : ListQueryResults).count := by
  refine ⟨?_, ?_, ?_⟩
  · exact claim_C3_empty_result_envelope.1
      { emptySearchParams with challengeName := some "a" }
      (searchPreparedOf { emptySearchParams with challengeName := some "a" } "a")
      { data := [], count := 9 } rfl rfl
  · exact claim_C3_empty_result_envelope.2.1 emptyScheduleParams
      (schedulePreparedOf emptyScheduleParams) { data := [], count := 9 } rfl rfl
  · exact (claim_C3_empty_result_envelope.2.2 emptyPracticeParams .member
      { data := [], count := 5 } _ rfl).1

/-- Counterexample to C10 as stated: a searchSRMChallenges request that
supplies pageIndex 2 and omits pageSize while also omitting challengeName
throws a TypeError instead of failing with an invalid-argument error
naming pageSize. -/
theorem claim_C10_counterexample :
    searchSRMChallenges_run { emptySearchParams with pageIndex := some 2 }
      { data := [], count := 0 }
      = .error .thrownTypeError
    ∧ ∀ e : ApiError, RunError.thrownTypeError ≠ .apiError e :=
  ⟨rfl, fun _ h => RunError.noConfusion h⟩

/-- C10 (amended): a request that supplies a pageIndex other than -1 while
omitting pageSize fails with an invalid-argument error naming pageSize —
unconditionally for getSRMSchedule, and for searchSRMChallenges whenever
challengeName is supplied (a request omitting challengeName instead throws,
see C9); in both cases for every database state, so no query is executed. -/
theorem claim_C10_conditional_page_size :
    (∀ (p : GetSRMScheduleParams) (i : Int) (db : ListQueryResults),
       p.pageIndex = some i → i ≠ -1 → p.pageSize = none →
       getSRMSchedule_run p db
         = .error (.illegalArgument "pageSize should be defined."))
  ∧ (∀ (p : SearchSRMChallengesParams) (cn : String) (i : Int) (db : ListQueryResults),
       p.challengeName = some cn → p.pageIndex = some i → i ≠ -1 → p.pageSize = none →
       searchSRMChallenges_run p db
         = .error (.apiError (.illegalArgument "pageSize should be defined."))) := by
  constructor
  · intro p i db hpi hne hps
    have herr : getSRMSchedule_pagingSortError p
        = some (.illegalArgument "pageSize should be defined.") := by
      simp [getSRMSchedule_pagingSortError, scheduleEffectivePageIndex, jsOrOptInt,
        hps, hpi, hne, checkDefined]
    have he : getSRMSchedule_error p
        = some (.illegalArgument "pageSize should be defined.") := by
      simp only [getSRMSchedule_error, herr]
      cases hs : p.statuses <;> cases ht : p.types <;>
        simp [orError, checkPhaseTimes_some]
    exact getSRMSchedule_run_error he db
  · intro p cn i db hcn hpi hne hps
    have herr : searchSRMChallenges_error p cn
        = some (.illegalArgument "pageSize should be defined.") := by
      simp [searchSRMChallenges_error, searchEffectivePageIndex, jsOrOptInt,
        hps, hpi, hne, checkDefined]
    simp [searchSRMChallenges_run, searchSRMChallenges_prepare, hcn, herr]

/-- Witness for C10 (amended) at concrete requests. -/
theorem claim_C10_witness :
    getSRMSchedule_run { emptyScheduleParams with pageIndex := some 2 }
      { data := [], count := 0 }
      = .error (.illegalArgument "pageSize should be defined.")
    ∧ searchSRMChallenges_run
      { emptySearchParams with pageIndex := some 3, challengeName := some "a" }
      { data := [], count := 0 }
      = .error (.apiError (.illegalArgument "pageSize should be defined.")) :=
  ⟨claim_C10_conditional_page_size.1 _ 2 _ rfl (by decide) rfl,
   claim_C10_conditional_page_size.2 _ "a" 3 _ rfl rfl (by decide) rfl⟩

/-- C2: for every accepted searchSRMChallenges or getSRMSchedule request
with effective pageIndex at least 1 and positive pageSize, the composed
query uses firstRowIndex = (pageIndex-1)*pageSize with pageSize passed
through; with the sentinel pageIndex -1 the query uses firstRowIndex 0
with pageSize forced to MAX_INT, and the response echoes pageSize 0 on an
empty result set and the total row count (never the forced maximum) on a
non-empty one. -/
theorem claim_C2_pagination :
    (∀ (p : SearchSRMChallengesParams) (prep : SearchPrepared),
       searchSRMChallenges_prepare p = .ok prep →
       1 ≤ searchEffectivePageIndex p → 0 < searchEffectivePageSize p →
       prep.sqlParams.firstRowIndex
         = (searchEffectivePageIndex p - 1) * searchEffectivePageSize p
       ∧ prep.sqlParams.pageSize = searchEffectivePageSize p)
  ∧ (∀ (p : GetSRMScheduleParams) (prep : SchedulePrepared),
       getSRMSchedule_prepare p = .ok prep →
       1 ≤ scheduleEffectivePageIndex p → 0 < scheduleEffectivePageSize p →
       prep.sqlParams.firstRowIndex
         = (scheduleEffectivePageIndex p - 1) * scheduleEffectivePageSize p
       ∧ prep.sqlParams.pageSize = scheduleEffectivePageSize p)
  ∧ (∀ (p : SearchSRMChallengesParams) (prep : SearchPrepared),
       p.pageIndex = some (-1) →
       searchSRMChallenges_prepare p = .ok prep →
       prep.sqlParams.firstRowIndex = 0 ∧ prep.sqlParams.pageSize = MAX_INT
       ∧ ∀ (db : ListQueryResults) (env : ListEnvelope),
           searchSRMChallenges_run p db = .ok env →
           (db.data.length = 0 → env.pageSize = 0)
           ∧ (db.data.length ≠ 0 → env.pageSize = env.total ∧ env.total = db.count))
  ∧ (∀ (p : GetSRMScheduleParams) (prep : SchedulePrepared),
       p.pageIndex = some (-1) →
       getSRMSchedule_prepare p = .ok prep →
       prep.sqlParams.firstRowIndex = 0 ∧ prep.sqlParams.pageSize = MAX_INT
       ∧ ∀ (db : ListQueryResults) (env : ListEnvelope),
           getSRMSchedule_run p db = .ok env →
           (db.data.length = 0 → env.pageSize = 0)
           ∧ (db.data.length ≠ 0 → env.pageSize = env.total ∧ env.total = db.count)) := by
  refine ⟨?_, ?_, ?_, ?_⟩
  · intro p prep h h1 h2
    obtain ⟨cn, hcn, he, rfl⟩ := searchSRMChallenges_prepare_ok h
    have hne : searchEffectivePageIndex p ≠ -1 := by omega
    simp [searchPreparedOf, hne]
  · intro p prep h h1 h2
    obtain ⟨he, rfl⟩ := getSRMSchedule_prepare_ok h
    have hne : scheduleEffectivePageIndex p ≠ -1 := by omega
    simp [schedulePreparedOf, hne]
  · intro p prep hs h
    obtain ⟨cn, hcn, he, rfl⟩ := searchSRMChallenges_prepare_ok h
    have hidx : searchEffectivePageIndex p = -1 := by
      simp [searchEffectivePageIndex, jsOrOptInt, hs]
    refine ⟨by simp [searchPreparedOf, hidx], by simp [searchPreparedOf, hidx], ?_⟩
    intro db env hrun
    simp only [searchSRMChallenges_run, searchSRMChallenges_prepare, hcn, he] at hrun
    by_cases hl : db.data.length = 0
    · rw [if_pos hl] at hrun
      simp only [Except.ok.injEq] at hrun
      subst hrun
      exact ⟨fun _ => by simp [hs], fun hc => absurd hl hc⟩
    · rw [if_neg hl] at hrun
      simp only [Except.ok.injEq] at hrun
      subst hrun
      exact ⟨fun hc => absurd hc hl, fun _ => by simp [hs]⟩
  · intro p prep hs h
    obtain ⟨he, rfl⟩ := getSRMSchedule_prepare_ok h
    have hidx : scheduleEffectivePageIndex p = -1 := by
      simp [scheduleEffectivePageIndex, jsOrOptInt, hs]
    refine ⟨by simp [schedulePreparedOf, hidx], by simp [schedulePreparedOf, hidx], ?_⟩
    intro db env hrun
    simp only [getSRMSchedule_run, getSRMSchedule_prepare, he] at hrun
    by_cases hl : db.data.length = 0
    · rw [if_pos hl] at hrun
      simp only [Except.ok.injEq] at hrun
      subst hrun
      exact ⟨fun _ => by simp [hs], fun hc => absurd hl hc⟩
    · rw [if_neg hl] at hrun
      simp only [Except.ok.injEq] at hrun
      subst hrun
      exact ⟨fun hc => absurd hc hl, fun _ => by simp [hs]⟩

/-- Witness for C2: a page-2 request with page size 10 starts at row 10,
and a sentinel request against 2 rows with count 7 echoes pageSize 7. -/
theorem claim_C2_witness :
    ((searchPreparedOf { emptySearchParams with pageIndex := some 2, pageSize := some 10, challengeName := some "a" } "a").sqlParams.firstRowIndex
      = (2 - 1) * 10
      ∧ (searchPreparedOf { emptySearchParams with pageIndex := some 2, pageSize := some 10, challengeName := some "a" } "a").sqlParams.pageSize = 10)
    ∧ (({ total := 7, pageIndex := 1, pageSize := 7, data := [{ fields := [] }, { fields := [] }] } : ListEnvelope).pageSize
         = ({ total := 7, pageIndex := 1, pageSize := 7, data := [{ fields := [] }, { fields := [] }] } : ListEnvelope).total
       ∧ ({ total := 7, pageIndex := 1, pageSize := 7, data := [{ fields := [] }, { fields := [] }] } : ListEnvelope).total
         = ({ data := [{ fields := [] }, { fields := [] }], count := 7 } : ListQueryResults).count) := by
  constructor
  · exact claim_C2_pagination.1
      { emptySearchParams with pageIndex := some 2, pageSize := some 10, challengeName := some "a" }
      (searchPreparedOf { emptySearchParams with pageIndex := some 2, pageSize := some 10, challengeName := some "a" } "a")
      rfl (by decide) (by decide)
  · exact ((claim_C2_pagination.2.2.1
      { emptySearchParams with pageIndex := some (-1), challengeName := some "a" }
      (searchPreparedOf { emptySearchParams with pageIndex := some (-1), challengeName := some "a" } "a")
      rfl rfl).2.2
      { data := [{ fields := [] }, { fields := [] }], count := 7 }
      { total := 7, pageIndex := 1, pageSize := 7, data := [{ fields := [] }, { fields := [] }] }
      rfl).2 (by decide)

/-- C4: for every phase-time pair of getSRMSchedule, a request supplying
both bounds with the After bound strictly later than the Before bound fails
with the invalid-argument error class naming the pair (After should be
earlier than Before), and the outcome is the same for every database state,
so no data or count query is executed. -/
theorem claim_C4_phase_time_after_later_rejected :
    ∀ (k : PhasePair) (b a : String) (tb ta : DateTime) (db : ListQueryResults),
      parseScheduleDate b = some tb → parseScheduleDate a = some ta →
      instant tb < instant ta →
      getSRMSchedule_run (schedulePhasePairRequest k b a) db
        = .error (.illegalArgument
            (k.afterName ++ " should be earlier than " ++ k.beforeName)) := by
  intro k b a tb ta db hb ha hlt
  have hnlt : ¬ instant ta < instant tb := by omega
  apply getSRMSchedule_run_error
  cases k <;>
    (rw [getSRMSchedule_error_phase_only rfl rfl rfl rfl rfl rfl];
     simp [checkPhaseTimes, schedulePhasePairRequest, emptyScheduleParams,
       PhasePair.beforeName, PhasePair.afterName,
       validatePhaseTime_none_none, validatePhaseTime_some,
       validatePhaseTime_pair _ _ hb ha hnlt])

/-- Witness for C4 at the round-trip scenario of the spec: Before January
2020, After February 2020, on the registration-start pair. -/
theorem claim_C4_witness :
    getSRMSchedule_run (schedulePhasePairRequest .regStart janDate febDate)
      { data := [], count := 0 }
      = .error (.illegalArgument (PhasePair.regStart.afterName
          ++ " should be earlier than " ++ PhasePair.regStart.beforeName)) :=
  claim_C4_phase_time_after_later_rejected .regStart janDate febDate janParsed febParsed
    { data := [], count := 0 } rfl rfl (by decide)

/-- Counterexample to C5 as stated: with Before = January 2020 and After =
February 2020 the After value is later (not earlier) than the Before value,
yet validatePhaseTime rejects the pair — so rejection does not happen
exactly when the After value is earlier than the Before value. -/
theorem claim_C5_counterexample :
    instant janParsed < instant febParsed
    ∧ parseScheduleDate janDate = some janParsed
    ∧ parseScheduleDate febDate = some febParsed
    ∧ validatePhaseTime none (some janDate) "registrationStartTimeBefore"
        (some febDate) "registrationStartTimeAfter"
      = some (.illegalArgument
          "registrationStartTimeAfter should be earlier than registrationStartTimeBefore") :=
  ⟨by decide, rfl, rfl, rfl⟩

/-- C5 (amended): the date-ordering validator accepts a pair with both
bounds present exactly when the After value is strictly earlier than the
Before value (so a request is rejected exactly when the After value is not
earlier than the Before value), and the ordering check runs only when both
bounds are present: with one or both bounds absent the outcome is just the
format validation of whichever bound is present, never an ordering
rejection. -/
theorem claim_C5_date_ordering :
    (∀ (b a nb na : String) (tb ta : DateTime),
       parseScheduleDate b = some tb → parseScheduleDate a = some ta →
       (validatePhaseTime none (some b) nb (some a) na = none
          ↔ instant ta < instant tb))
  ∧ (∀ (e : Option ApiError) (b nb na : String),
       validatePhaseTime e (some b) nb none na
         = orError e (validateDate b nb SCHEDULE_DATE_FORMAT))
  ∧ (∀ (e : Option ApiError) (a nb na : String),
       validatePhaseTime e none nb (some a) na
         = orError e (validateDate a na SCHEDULE_DATE_FORMAT))
  ∧ (∀ (e : Option ApiError) (nb na : String),
       validatePhaseTime e none nb none na = e) := by
  refine ⟨?_, ?_, ?_, ?_⟩
  · intro b a nb na tb ta hb ha
    simp only [validatePhaseTime]
    rw [validateDate_schedule_ok (by rw [hb]; rfl),
      validateDate_schedule_ok (by rw [ha]; rfl)]
    simp only [orError_none]
    by_cases h : instant ta < instant tb <;> simp [checkDates, ha, hb, h]
  · intro e b nb na; rfl
  · intro e a nb na; rfl
  · intro e nb na; rfl

/-- Witness for C5 (amended): an ordered registration pair is accepted, and
a single supplied bound reduces to its format check. -/
theorem claim_C5_witness :
    (validatePhaseTime none (some febDate) "registrationStartTimeBefore"
        (some janDate) "registrationStartTimeAfter" = none
       ↔ instant janParsed < instant febParsed)
    ∧ validatePhaseTime none (some janDate) "registrationStartTimeBefore"
        none "registrationStartTimeAfter"
      = orError none (validateDate janDate "registrationStartTimeBefore" SCHEDULE_DATE_FORMAT) :=
  ⟨claim_C5_date_ordering.1 febDate janDate "registrationStartTimeBefore"
     "registrationStartTimeAfter" febParsed janParsed rfl rfl,
   claim_C5_date_ordering.2.1 none janDate "registrationStartTimeBefore"
     "registrationStartTimeAfter"⟩

/-- C6: every comma-delimited filter input containing an element outside
the applicable allow-list (statuses and types on getSRMSchedule; statuses,
difficulty and problemTypes on getPracticeProblems) is rejected with an
invalid-argument error naming the first offending element and its owning
field, with the same outcome for every database state, so no query is
executed. -/
theorem claim_C6_subset_allow_lists :
    (∀ (sts x : String) (db : ListQueryResults),
       (jsSplitComma sts).find? (fun v => !VALID_ROUND_STATUS.contains v) = some x →
       getSRMSchedule_run { emptyScheduleParams with statuses := some sts } db
         = .error (.illegalArgument ("statuses contains invalid value " ++ x ++ ".")))
  ∧ (∀ (ts x : String) (db : ListQueryResults),
       (jsSplitComma ts).find? (fun v => !VALID_ROUND_TYPES.contains v) = some x →
       getSRMSchedule_run { emptyScheduleParams with types := some ts } db
         = .error (.illegalArgument ("types contains invalid value " ++ x ++ ".")))
  ∧ (∀ (sts x : String) (db : ListQueryResults),
       (jsSplitComma sts).find? (fun v => !VALID_PRACTICE_PROBLEMS_STATUS.contains v) = some x →
       getPracticeProblems_run { emptyPracticeParams with statuses := some sts } .member db
         = .error (.illegalArgument ("statuses contains invalid value " ++ x ++ ".")))
  ∧ (∀ (d x : String) (db : ListQueryResults),
       (jsSplitComma d).find? (fun v => !VALID_PRACTICE_PROBLEMS_DIFFICULTY.contains v) = some x →
       getPracticeProblems_run { emptyPracticeParams with difficulty := some d } .member db
         = .error (.illegalArgument ("difficulty contains invalid value " ++ x ++ ".")))
  ∧ (∀ (t x : String) (db : ListQueryResults),
       (jsSplitComma t).find? (fun v => !VALID_PRACTICE_PROBLEMS_TYPE.contains v) = some x →
       getPracticeProblems_run { emptyPracticeParams with problemTypes := some t } .member db
         = .error (.illegalArgument ("problemTypes contains invalid value " ++ x ++ "."))) := by
  refine ⟨?_, ?_, ?_, ?_, ?_⟩
  · intro sts x db h
    apply getSRMSchedule_run_error
    have hsub : checkSubset (jsSplitComma sts) VALID_ROUND_STATUS "statuses"
        = some (.illegalArgument ("statuses contains invalid value " ++ x ++ ".")) := by
      simp only [checkSubset, h]; rfl
    simp only [getSRMSchedule_error]
    rw [schedule_pagingSortError_base rfl rfl rfl rfl]
    simp [hsub, checkPhaseTimes_some, emptyScheduleParams]
  · intro ts x db h
    apply getSRMSchedule_run_error
    have hsub : checkSubset (jsSplitComma ts) VALID_ROUND_TYPES "types"
        = some (.illegalArgument ("types contains invalid value " ++ x ++ ".")) := by
      simp only [checkSubset, h]; rfl
    simp only [getSRMSchedule_error]
    rw [schedule_pagingSortError_base rfl rfl rfl rfl]
    simp [hsub, checkPhaseTimes_some, emptyScheduleParams]
  · intro sts x db h
    apply getPracticeProblems_run_error
    have hsub : checkSubset (jsSplitComma sts) VALID_PRACTICE_PROBLEMS_STATUS "statuses"
        = some (.illegalArgument ("statuses contains invalid value " ++ x ++ ".")) := by
      simp only [checkSubset, h]; rfl
    simp only [getPracticeProblems_error]
    rw [practice_pagingSortError_base rfl rfl rfl rfl]
    simp [hsub, emptyPracticeParams]
  · intro d x db h
    apply getPracticeProblems_run_error
    have hsub : checkSubset (jsSplitComma d) VALID_PRACTICE_PROBLEMS_DIFFICULTY "difficulty"
        = some (.illegalArgument ("difficulty contains invalid value " ++ x ++ ".")) := by
      simp only [checkSubset, h]; rfl
    simp only [getPracticeProblems_error]
    rw [practice_pagingSortError_base rfl rfl rfl rfl]
    simp [hsub, emptyPracticeParams]
  · intro t x db h
    apply getPracticeProblems_run_error
    have hsub : checkSubset (jsSplitComma t) VALID_PRACTICE_PROBLEMS_TYPE "problemTypes"
        = some (.illegalArgument ("problemTypes contains invalid value " ++ x ++ ".")) := by
      simp only [checkSubset, h]; rfl
    simp only [getPracticeProblems_error]
    rw [practice_pagingSortError_base rfl rfl rfl rfl]
    simp [hsub, emptyPracticeParams]

/-- Witness for C6 at concrete unknown elements on each of the five
comma-delimited filter inputs. -/
theorem claim_C6_witness :
    getSRMSchedule_run { emptyScheduleParams with statuses := some "f,q" }
      { data := [], count := 0 }
      = .error (.illegalArgument ("statuses contains invalid value " ++ "q" ++ "."))
    ∧ getSRMSchedule_run { emptyScheduleParams with types := some "Lightning Round" }
      { data := [], count := 0 }
      = .error (.illegalArgument ("types contains invalid value " ++ "Lightning Round" ++ "."))
    ∧ getPracticeProblems_run { emptyPracticeParams with statuses := some "new,old" } .member
      { data := [], count := 0 }
      = .error (.illegalArgument ("statuses contains invalid value " ++ "old" ++ "."))
    ∧ getPracticeProblems_run { emptyPracticeParams with difficulty := some "extreme" } .member
      { data := [], count := 0 }
      = .error (.illegalArgument ("difficulty contains invalid value " ++ "extreme" ++ "."))
    ∧ getPracticeProblems_run { emptyPracticeParams with problemTypes := some "single,duo" } .member
      { data := [], count := 0 }
      = .error (.illegalArgument ("problemTypes contains invalid value " ++ "duo" ++ ".")) :=
  ⟨claim_C6_subset_allow_lists.1 "f,q" "q" { data := [], count := 0 } rfl,
   claim_C6_subset_allow_lists.2.1 "Lightning Round" "Lightning Round"
     { data := [], count := 0 } rfl,
   claim_C6_subset_allow_lists.2.2.1 "new,old" "old" { data := [], count := 0 } rfl,
   claim_C6_subset_allow_lists.2.2.2.1 "extreme" "extreme" { data := [], count := 0 } rfl,
   claim_C6_subset_allow_lists.2.2.2.2 "single,duo" "duo" { data := [], count := 0 } rfl⟩

/-- Counterexample to C8 as stated: a searchSRMChallenges request that
supplies the allow-listed but non-default sort column submissionEndDate and
omits sortOrder is accepted with effective sort order desc, not the
ascending order the claim promises for a non-default sort column. -/
theorem claim_C8_counterexample :
    searchSRMChallenges_prepare c8Params = .ok (searchPreparedOf c8Params "a")
    ∧ c8Params.sortOrder = none
    ∧ c8Params.sortColumn = some "submissionEndDate"
    ∧ (searchPreparedOf c8Params "a").sqlParams.sortOrder = "desc"
    ∧ (searchPreparedOf c8Params "a").sqlParams.sortOrder ≠ "asc" :=
  ⟨rfl, rfl, rfl, rfl, by decide⟩

/-- C8 (amended): on both endpoints the effective sort order of an accepted
request is the lower-cased supplied sortOrder whenever one is supplied
(non-empty), and with sortOrder omitted it is descending exactly when the
effective sort column — after lower-casing, defaulting, and for challenge
search the submissionEndDate-to-roundId remap — equals the endpoint default
(roundid resp. registrationstarttime), ascending otherwise. -/
theorem claim_C8_sort_order_defaults :
    (∀ (p : SearchSRMChallengesParams) (prep : SearchPrepared),
       searchSRMChallenges_prepare p = .ok prep →
       prep.sqlParams.sortOrder = searchEffectiveSortOrder p)
  ∧ (∀ (p : SearchSRMChallengesParams) (o : String),
       p.sortOrder = some o → o ≠ "" →
       searchEffectiveSortOrder p = jsToLower o)
  ∧ (∀ (p : SearchSRMChallengesParams),
       p.sortOrder = none →
       searchEffectiveSortOrder p
         = (if searchEffectiveSortColumn p = "roundid" then "desc" else "asc"))
  ∧ (∀ (p : GetSRMScheduleParams) (prep : SchedulePrepared),
       getSRMSchedule_prepare p = .ok prep →
       prep.sqlParams.sortOrder = scheduleEffectiveSortOrder p)
  ∧ (∀ (p : GetSRMScheduleParams) (o : String),
       p.sortOrder = some o → o ≠ "" →
       scheduleEffectiveSortOrder p = jsToLower o)
  ∧ (∀ (p : GetSRMScheduleParams),
       p.sortOrder = none →
       scheduleEffectiveSortOrder p
         = (if scheduleEffectiveSortColumn p = "registrationstarttime" then "desc" else "asc")) := by
  have hasc : jsToLower "asc" = "asc" := rfl
  refine ⟨?_, ?_, ?_, ?_, ?_, ?_⟩
  · intro p prep h
    obtain ⟨cn, hcn, he, rfl⟩ := searchSRMChallenges_prepare_ok h
    simp [searchPreparedOf]
  · intro p o ho hne
    simp [searchEffectiveSortOrder, ho, jsOrOptStr, hne]
  · intro p h
    by_cases hcol : searchEffectiveSortColumn p = "roundid" <;>
      simp [searchEffectiveSortOrder, h, hcol, jsOrOptStr, hasc]
  · intro p prep h
    obtain ⟨he, rfl⟩ := getSRMSchedule_prepare_ok h
    simp [schedulePreparedOf]
  · intro p o ho hne
    simp [scheduleEffectiveSortOrder, ho, jsOrOptStr, hne]
  · intro p h
    by_cases hcol : scheduleEffectiveSortColumn p = "registrationstarttime" <;>
      simp [scheduleEffectiveSortOrder, h, hcol, jsOrOptStr, hasc]

/-- Witness for C8 (amended): a supplied sortOrder is lower-cased and used,
and with sortOrder omitted a non-default schedule sort column gets asc. -/
theorem claim_C8_witness :
    searchEffectiveSortOrder { emptySearchParams with sortOrder := some "DESC", challengeName := some "a" } = jsToLower "DESC"
    ∧ scheduleEffectiveSortOrder { emptyScheduleParams with sortColumn := some "codingStartTime" }
      = (if scheduleEffectiveSortColumn { emptyScheduleParams with sortColumn := some "codingStartTime" } = "registrationstarttime"
         then "desc" else "asc") :=
  ⟨claim_C8_sort_order_defaults.2.1
     { emptySearchParams with sortOrder := some "DESC", challengeName := some "a" }
     "DESC" rfl (by decide),
   claim_C8_sort_order_defaults.2.2.2.2.2
     { emptyScheduleParams with sortColumn := some "codingStartTime" } rfl⟩

end TcApi
